import Mathlib

/-!
# Verification of the thomas-simulator core

A shallow embedding, over `ℚ`, of the grab/collision controller
(`PhysicsWorld`, src/unnamed/part_001) and of the vessel liquid simulation
(`LiquidSimulation`, src/src/sounds.js), together with proofs settling the
claims of the natural-language specification.

Modelling conventions:
* JavaScript numbers are modelled as exact rationals (`ℚ`).
* Transcendental library calls (`Math.sin`, `Math.cos`, `Math.sqrt`,
  `Math.atan2`, `Math.PI`, three.js `Quaternion.slerp` / `Euler`
  conversion) are abstracted as explicit function parameters; every
  universal theorem below quantifies over them, and concrete evaluations
  instantiate them with rational stand-ins that agree with the real
  functions at the points actually used.
* Comparisons of a Euclidean norm against a non-negative bound are
  modelled by the equivalent comparison of the squared norm against the
  squared bound where noted (`impactSpeed > threshold` becomes
  `impactSpeedSq > threshold * threshold`, exact for `threshold ≥ 0`).
* External collaborators (three.js raycasting, scene graph transforms,
  the random generator, the rigid-body step itself) enter as inputs to
  the per-frame functions, never as hidden state.
-/

namespace ThomasSim

/-- three.js / cannon-es 3-vector over exact rationals. -/
structure Vec3 where
  x : ℚ
  y : ℚ
  z : ℚ
deriving DecidableEq

namespace Vec3

def zero : Vec3 := ⟨0, 0, 0⟩

def add (a b : Vec3) : Vec3 := ⟨a.x + b.x, a.y + b.y, a.z + b.z⟩

def sub (a b : Vec3) : Vec3 := ⟨a.x - b.x, a.y - b.y, a.z - b.z⟩

def smul (c : ℚ) (a : Vec3) : Vec3 := ⟨c * a.x, c * a.y, c * a.z⟩

/-- Squared Euclidean norm. -/
def normSq (a : Vec3) : ℚ := a.x * a.x + a.y * a.y + a.z * a.z

/-- Squared distance between two points. -/
def distSq (a b : Vec3) : ℚ := normSq (sub a b)

/-- three.js `Vector3.lerpVectors(a, b, t)`: `a + (b - a) * t`. -/
def lerpV (a b : Vec3) (t : ℚ) : Vec3 := add a (smul t (sub b a))

/-- three.js `Vector3.setY`. -/
def setY (a : Vec3) (v : ℚ) : Vec3 := ⟨a.x, v, a.z⟩

end Vec3

/-- Scalar linear interpolation, `THREE.MathUtils.lerp`. -/
def lerpQ (a b t : ℚ) : ℚ := a + (b - a) * t

/-- Quaternion over rationals (three.js / cannon-es component order). -/
structure Quat where
  x : ℚ
  y : ℚ
  z : ℚ
  w : ℚ
deriving DecidableEq

namespace Quat

def id : Quat := ⟨0, 0, 0, 1⟩

/-- cannon-es `Quaternion.conjugate`. -/
def conjugate (q : Quat) : Quat := ⟨-q.x, -q.y, -q.z, q.w⟩

/-- cannon-es `Quaternion.vmult`: rotate vector `v` by quaternion `q`. -/
def vmult (q : Quat) (v : Vec3) : Vec3 :=
  let ix := q.w * v.x + q.y * v.z - q.z * v.y
  let iy := q.w * v.y + q.z * v.x - q.x * v.z
  let iz := q.w * v.z + q.x * v.y - q.y * v.x
  let iw := -q.x * v.x - q.y * v.y - q.z * v.z
  ⟨ix * q.w + iw * -q.x + iy * -q.z - iz * -q.y,
   iy * q.w + iw * -q.y + iz * -q.x - ix * -q.z,
   iz * q.w + iw * -q.z + ix * -q.y - iy * -q.x⟩

end Quat

/-- cannon-es body mode (`CANNON.Body.DYNAMIC` / `STATIC` / `KINEMATIC`). -/
inductive BType where
  | dynamic
  | static
  | kinematic
deriving DecidableEq

/-- The fields of a cannon-es rigid body that the verified code reads or
writes.  `mass = 0` bodies are static colliders. -/
structure Body where
  mass : ℚ
  btype : BType
  position : Vec3
  velocity : Vec3
  angularVelocity : Vec3
  quaternion : Quat
  linearDamping : ℚ
  angularDamping : ℚ
deriving DecidableEq

/-! ## CollisionMonitor (src/unnamed/part_001, `setupCollisionDetection` /
`processPendingBreaks`)

Registrations live in `breakableObjects` (a JS `Map` keyed by mesh,
modelled as an association list keyed by a mesh id, in insertion order).
Bodies are looked up by id in a snapshot `bodies : ℕ → Option Body`
supplied with each contact event, mirroring `config.body` possibly being
absent.  The registered `onBreak` callback is always the non-null wrapper
installed by `registerBreakable`; an invocation is therefore modelled as
the drained record itself. -/

/-- A `BreakableRegistration`: `breakableObjects` entry
`mesh -> { body, threshold, onBreak }`. -/
structure BreakCfg where
  bodyId : ℕ
  threshold : ℚ
deriving DecidableEq

/-- A queued `DeferredBreakRecord`
(`{ mesh, body, impactPoint, impactSpeed, config }`). -/
structure BreakRecord where
  meshId : ℕ
  bodyId : ℕ
  impactPoint : Vec3
  impactSpeedSq : ℚ
deriving DecidableEq

/-- The breakage-related fields of `PhysicsWorld`. -/
structure BreakState where
  breakables : List (ℕ × BreakCfg)
  pendingBreaks : List BreakRecord
deriving DecidableEq

/-- A `beginContact` event: the two colliding body ids plus a snapshot of
the body registry at event time. -/
structure ContactEvent where
  bodies : ℕ → Option Body
  bodyA : ℕ
  bodyB : ℕ

/-- `isGround || isFragment` classification of the other body:
static ground (`mass === 0 && position.y < 0.3`) or a small fragment
(`mass > 0 && mass < 0.1`). -/
def qualifiesForBreak (other : Body) : Prop :=
  (other.mass = 0 ∧ other.position.y < 0.3) ∨ (0 < other.mass ∧ other.mass < 0.1)

instance : DecidablePred qualifiesForBreak := fun _ => by
  unfold qualifiesForBreak; infer_instance

/-- Whether one registration fires on a contact of `a` and `b`: the body
exists, is not kinematic (currently grabbed), is one of the two contacting
bodies, the other body qualifies, and the relative speed exceeds the
registered threshold (squared comparison; exact for `threshold ≥ 0`). -/
def breakFires (ev : ContactEvent) (cfg : BreakCfg) : Bool :=
  match ev.bodies cfg.bodyId with
  | none => false
  | some body =>
    if body.btype = BType.kinematic then false
    else if cfg.bodyId = ev.bodyA ∨ cfg.bodyId = ev.bodyB then
      let otherId := if cfg.bodyId = ev.bodyA then ev.bodyB else ev.bodyA
      match ev.bodies otherId with
      | none => false
      | some other =>
        decide (qualifiesForBreak other ∧
          Vec3.normSq (Vec3.sub body.velocity other.velocity) >
            cfg.threshold * cfg.threshold)
    else false

/-- The impact point recorded for a break: the breakable body's position
(the handler reads `body.position`). -/
def breakImpactPoint (ev : ContactEvent) (cfg : BreakCfg) : Vec3 :=
  match ev.bodies cfg.bodyId with
  | none => Vec3.zero
  | some body => body.position

/-- The squared impact speed recorded for a break. -/
def breakImpactSpeedSq (ev : ContactEvent) (cfg : BreakCfg) : ℚ :=
  match ev.bodies cfg.bodyId, ev.bodies (if cfg.bodyId = ev.bodyA then ev.bodyB else ev.bodyA) with
  | some body, some other => Vec3.normSq (Vec3.sub body.velocity other.velocity)
  | _, _ => 0

/-- One registration examined by the `beginContact` handler: a firing
entry is dropped from the rebuilt registration list and its deferred
record is pushed; a non-firing entry is kept. -/
def breakStep (ev : ContactEvent) (acc : BreakState) (entry : ℕ × BreakCfg) :
    BreakState :=
  if breakFires ev entry.2 then
    { acc with
      pendingBreaks := acc.pendingBreaks ++
        [{ meshId := entry.1, bodyId := entry.2.bodyId,
           impactPoint := breakImpactPoint ev entry.2,
           impactSpeedSq := breakImpactSpeedSq ev entry.2 }] }
  else
    { acc with breakables := acc.breakables ++ [entry] }

/-- The `beginContact` handler: iterate over every registration; each one
that fires is deleted from `breakableObjects` and a deferred record is
pushed onto `pendingBreaks` (deleting the entry under iteration of a JS
`Map` is safe and is modelled by rebuilding the list). -/
def handleContact (ev : ContactEvent) (st : BreakState) : BreakState :=
  st.breakables.foldl (breakStep ev)
    { breakables := [], pendingBreaks := st.pendingBreaks }

/-- `processPendingBreaks`: drain the queue in FIFO order, invoking each
record's callback once; returns the cleared state and the list of
callback invocations. -/
def processPendingBreaks (st : BreakState) : BreakState × List BreakRecord :=
  ({ st with pendingBreaks := [] }, st.pendingBreaks)

/-- One frame of the collision monitor: all `beginContact` events raised
during the physics step, followed by the post-step drain. -/
def breakFrame (evs : List ContactEvent) (st : BreakState) :
    BreakState × List BreakRecord :=
  processPendingBreaks (evs.foldl (fun s e => handleContact e s) st)

/-- The final monitor state and all callback invocations over a trace of
frames. -/
def breakTrace : List (List ContactEvent) → BreakState → BreakState × List BreakRecord
  | [], st => (st, [])
  | f :: fs, st =>
    let r := breakFrame f st
    let rest := breakTrace fs r.1
    (rest.1, r.2 ++ rest.2)

/-- Number of registrations of mesh `m`. -/
def regCount (m : ℕ) (st : BreakState) : ℕ :=
  (st.breakables.filter (fun e => e.1 = m)).length

/-- Number of queued records for mesh `m`. -/
def pendCount (m : ℕ) (st : BreakState) : ℕ :=
  (st.pendingBreaks.filter (fun r => r.meshId = m)).length

/-! ### Lemmas about one `beginContact` pass -/

lemma foldl_breakStep_reg (ev : ContactEvent) (m : ℕ) :
    ∀ (l : List (ℕ × BreakCfg)) (acc : BreakState),
      regCount m (l.foldl (breakStep ev) acc) =
        regCount m acc +
          (((l.filter (fun e => e.1 = m)).filter
            (fun e => !breakFires ev e.2))).length := by
  intro l
  induction l with
  | nil => intro acc; simp
  | cons e t ih =>
    intro acc
    simp only [List.foldl_cons, List.filter_cons]
    rw [ih]
    unfold breakStep
    by_cases hf : breakFires ev e.2
    · by_cases hm : e.1 = m <;> simp [hf, hm, regCount]
    · by_cases hm : e.1 = m <;>
        simp [hf, hm, regCount, List.filter_append] <;> omega

lemma foldl_breakStep_pend (ev : ContactEvent) (m : ℕ) :
    ∀ (l : List (ℕ × BreakCfg)) (acc : BreakState),
      pendCount m (l.foldl (breakStep ev) acc) =
        pendCount m acc +
          (((l.filter (fun e => e.1 = m)).filter
            (fun e => breakFires ev e.2))).length := by
  intro l
  induction l with
  | nil => intro acc; simp
  | cons e t ih =>
    intro acc
    simp only [List.foldl_cons, List.filter_cons]
    rw [ih]
    unfold breakStep
    by_cases hf : breakFires ev e.2
    · by_cases hm : e.1 = m <;>
        simp [hf, hm, pendCount, List.filter_append] <;> omega
    · by_cases hm : e.1 = m <;> simp [hf, hm, pendCount]

lemma handleContact_reg (ev : ContactEvent) (m : ℕ) (st : BreakState) :
    regCount m (handleContact ev st) =
      ((st.breakables.filter (fun e => e.1 = m)).filter
        (fun e => !breakFires ev e.2)).length := by
  unfold handleContact
  rw [foldl_breakStep_reg]
  simp [regCount]

lemma handleContact_pend (ev : ContactEvent) (m : ℕ) (st : BreakState) :
    pendCount m (handleContact ev st) =
      pendCount m st +
        ((st.breakables.filter (fun e => e.1 = m)).filter
          (fun e => breakFires ev e.2)).length := by
  unfold handleContact
  rw [foldl_breakStep_pend]
  simp [pendCount]

/-- Once the registration for `m` is gone, a contact event can neither
re-register `m` nor queue a record for it. -/
lemma handleContact_unregistered (ev : ContactEvent) (m : ℕ) (st : BreakState)
    (h : regCount m st = 0) :
    regCount m (handleContact ev st) = 0 ∧
      pendCount m (handleContact ev st) = pendCount m st := by
  have hnil : st.breakables.filter (fun e => e.1 = m) = [] := by
    have := h
    unfold regCount at this
    exact List.length_eq_zero.mp this
  constructor
  · rw [handleContact_reg, hnil]; rfl
  · rw [handleContact_pend, hnil]; rfl

lemma evfold_unregistered (m : ℕ) :
    ∀ (evs : List ContactEvent) (st : BreakState), regCount m st = 0 →
      regCount m (evs.foldl (fun s e => handleContact e s) st) = 0 ∧
        pendCount m (evs.foldl (fun s e => handleContact e s) st) =
          pendCount m st := by
  intro evs
  induction evs with
  | nil => intro st h; exact ⟨h, rfl⟩
  | cons e t ih =>
    intro st h
    have h1 := handleContact_unregistered e m st h
    have h2 := ih (handleContact e st) h1.1
    exact ⟨h2.1, by rw [List.foldl_cons] at *; rw [h2.2, h1.2]⟩

/-- A frame that starts with no registration and no queued record for `m`
invokes no callback for `m` and ends in the same clean situation. -/
lemma breakFrame_clean (evs : List ContactEvent) (m : ℕ) (st : BreakState)
    (hreg : regCount m st = 0) (hpend : pendCount m st = 0) :
    regCount m (breakFrame evs st).1 = 0 ∧
      pendCount m (breakFrame evs st).1 = 0 ∧
      ((breakFrame evs st).2.filter (fun r => r.meshId = m)).length = 0 := by
  have h := evfold_unregistered m evs st hreg
  unfold breakFrame processPendingBreaks
  refine ⟨h.1, rfl, ?_⟩
  have : pendCount m (evs.foldl (fun s e => handleContact e s) st) = 0 := by
    rw [h.2, hpend]
  exact this

lemma breakFires_of_conditions (ev : ContactEvent) (cfg : BreakCfg)
    (body other : Body)
    (hbody : ev.bodies cfg.bodyId = some body)
    (hkin : body.btype ≠ BType.kinematic)
    (hin : cfg.bodyId = ev.bodyA ∨ cfg.bodyId = ev.bodyB)
    (hother : ev.bodies (if cfg.bodyId = ev.bodyA then ev.bodyB else ev.bodyA) =
      some other)
    (hqual : qualifiesForBreak other)
    (hspeed : Vec3.normSq (Vec3.sub body.velocity other.velocity) >
      cfg.threshold * cfg.threshold) :
    breakFires ev cfg = true := by
  unfold breakFires
  rw [hbody]
  simp only [hkin, if_neg, hin, if_pos, hother]
  simp [hkin, hin, hother, hqual, hspeed]

lemma breakTrace_clean (m : ℕ) :
    ∀ (frames : List (List ContactEvent)) (st : BreakState),
      regCount m st = 0 → pendCount m st = 0 →
      ((breakTrace frames st).2.filter (fun r => r.meshId = m)).length = 0 := by
  intro frames
  induction frames with
  | nil => intro st _ _; rfl
  | cons f fs ih =>
    intro st hreg hpend
    have hf := breakFrame_clean f m st hreg hpend
    unfold breakTrace
    simp only [List.filter_append, List.length_append]
    rw [hf.2.2, ih (breakFrame f st).1 hf.1 hf.2.1]

/-- **C1.** For a contact-begin event involving a currently-registered
breakable body that is not Kinematic, where the other body qualifies
(static ground of mass 0 below height 0.3, or a fragment of mass in
(0, 0.1)) and the relative speed exceeds the registered threshold
(squared comparison), the handler queues exactly one deferred break
record and removes the registration immediately, so over the rest of the
frame and every later frame the break callback fires exactly once:
repeated contacts never fire it again. -/
theorem C1_breakable_breaks_exactly_once
    (st : BreakState) (m : ℕ) (cfg : BreakCfg) (ev : ContactEvent)
    (evs : List ContactEvent) (frames : List (List ContactEvent))
    (body other : Body)
    (hreg : st.breakables.filter (fun e => e.1 = m) = [(m, cfg)])
    (hpend : pendCount m st = 0)
    (hbody : ev.bodies cfg.bodyId = some body)
    (hkin : body.btype ≠ BType.kinematic)
    (hin : cfg.bodyId = ev.bodyA ∨ cfg.bodyId = ev.bodyB)
    (hother : ev.bodies (if cfg.bodyId = ev.bodyA then ev.bodyB else ev.bodyA) =
      some other)
    (hqual : qualifiesForBreak other)
    (hspeed : Vec3.normSq (Vec3.sub body.velocity other.velocity) >
      cfg.threshold * cfg.threshold) :
    regCount m (handleContact ev st) = 0 ∧
    pendCount m (handleContact ev st) = 1 ∧
    ((breakTrace ((ev :: evs) :: frames) st).2.filter
        (fun r => r.meshId = m)).length = 1 := by
  have hfire := breakFires_of_conditions ev cfg body other hbody hkin hin hother
    hqual hspeed
  have hreg1 : regCount m (handleContact ev st) = 0 := by
    rw [handleContact_reg, hreg]
    simp [hfire]
  have hpend1 : pendCount m (handleContact ev st) = 1 := by
    rw [handleContact_pend, hreg, hpend]
    simp [hfire]
  refine ⟨hreg1, hpend1, ?_⟩
  -- the rest of the first frame keeps the clean/pending situation
  have hrest := evfold_unregistered m evs (handleContact ev st) hreg1
  -- the first frame's drain invokes the single queued record
  unfold breakTrace
  simp only [List.filter_append, List.length_append]
  have hframe1 :
      ((breakFrame (ev :: evs) st).2.filter (fun r => r.meshId = m)).length = 1 := by
    unfold breakFrame processPendingBreaks
    simp only [List.foldl_cons]
    have : pendCount m (evs.foldl (fun s e => handleContact e s)
        (handleContact ev st)) = 1 := by rw [hrest.2, hpend1]
    exact this
  have hframe1st :
      regCount m (breakFrame (ev :: evs) st).1 = 0 ∧
        pendCount m (breakFrame (ev :: evs) st).1 = 0 := by
    unfold breakFrame processPendingBreaks
    simp only [List.foldl_cons]
    exact ⟨hrest.1, rfl⟩
  rw [hframe1, breakTrace_clean m frames _ hframe1st.1 hframe1st.2]

/-- A concrete cup body about to shatter on the ground. -/
def witnessCupBody : Body :=
  { mass := 3/10, btype := .dynamic, position := ⟨0, 1/20, 0⟩,
    velocity := ⟨4, 0, 0⟩, angularVelocity := Vec3.zero,
    quaternion := Quat.id, linearDamping := 3/10, angularDamping := 1/2 }

/-- The static ground body (mass 0, height below 0.3). -/
def witnessGroundBody : Body :=
  { mass := 0, btype := .static, position := Vec3.zero,
    velocity := Vec3.zero, angularVelocity := Vec3.zero,
    quaternion := Quat.id, linearDamping := 3/10, angularDamping := 1/2 }

/-- Body registry snapshot for the breakage scenario. -/
def witnessBodies : ℕ → Option Body :=
  fun n => if n = 0 then some witnessCupBody
    else if n = 1 then some witnessGroundBody else none

/-- Ground contact of the registered cup (threshold 2, impact speed 4). -/
def witnessEvent : ContactEvent :=
  { bodies := witnessBodies, bodyA := 0, bodyB := 1 }

/-- Witness for C1: the spec scenario — impact speed 4 against the ground
with registered threshold 2, the same contact repeated both in the same
frame and in a later frame; the callback fires exactly once. -/
theorem C1_breakable_breaks_exactly_once_witness :
    (({ breakables := [(5, { bodyId := 0, threshold := 2 })],
        pendingBreaks := [] } : BreakState).breakables.filter
          (fun e => e.1 = 5) = [(5, { bodyId := 0, threshold := 2 })]) ∧
    ((breakTrace [[witnessEvent, witnessEvent], [witnessEvent]]
        { breakables := [(5, { bodyId := 0, threshold := 2 })],
          pendingBreaks := [] }).2.filter (fun r => r.meshId = 5)).length = 1 :=
  ⟨rfl,
    (C1_breakable_breaks_exactly_once
      { breakables := [(5, { bodyId := 0, threshold := 2 })], pendingBreaks := [] }
      5 { bodyId := 0, threshold := 2 } witnessEvent [witnessEvent] [[witnessEvent]]
      witnessCupBody witnessGroundBody
      rfl rfl rfl (by decide) (Or.inl rfl) rfl
      (Or.inl ⟨rfl, by norm_num [witnessGroundBody, Vec3.zero]⟩)
      (by norm_num [witnessCupBody, witnessGroundBody, Vec3.sub, Vec3.normSq,
        Vec3.zero])).2.2⟩

/-! ## GrabController (src/unnamed/part_001, `tryGrab` / `updateGrab` /
`release`)

The controller's state is the grab-related fields of `PhysicsWorld`
together with the body registry (`this.bodies`) and the three.js meshes it
mutates.  Raycasting (`raycaster.intersectObjects` plus the walk up to the
registered root) and the camera transforms (`localToWorld`,
`getWorldDirection`, the ray/plane intersection) are performed by three.js
and enter as oracle inputs.  The scratch `this.mouse` vector is not
modelled; the normalisation `-(pixelY / innerHeight) * 2 + 1` is. -/

/-- The three.js scene-graph state of one mesh that the controller reads
or writes. -/
structure Mesh where
  position : Vec3
  quaternion : Quat
  name : String
deriving DecidableEq

/-- Rational stand-ins for the transcendental library functions used by
the controller and the liquid simulation.  Universal theorems quantify
over an arbitrary `MathExt`; concrete evaluations use `mathExt0` below. -/
structure MathExt where
  sinE : ℚ → ℚ
  cosE : ℚ → ℚ
  sqrtE : ℚ → ℚ
  atan2E : ℚ → ℚ → ℚ
  piE : ℚ
  /-- `new THREE.Quaternion().setFromEuler(new THREE.Euler(0, y, z))`. -/
  eulerYZ : ℚ → ℚ → Quat
  /-- `q.slerp(target, t)`. -/
  slerpE : Quat → Quat → ℚ → Quat

/-- Concrete instantiation used for closed evaluations: truncated Taylor
polynomials for sine/cosine (exact at 0, the only argument where accuracy
matters below), `Rat.sqrt` (exact on squares of rationals), and trivial
stand-ins for the orientation helpers, which no claim observes. -/
def mathExt0 : MathExt :=
  { sinE := fun x => x - x ^ 3 / 6
    cosE := fun x => 1 - x ^ 2 / 2
    sqrtE := Rat.sqrt
    atan2E := fun _ _ => 0
    piE := 355 / 113
    eulerYZ := fun _ _ => Quat.id
    slerpE := fun q _ _ => q }

/-- The grab-related mutable state of `PhysicsWorld`. -/
structure PW where
  bodies : ℕ → Option Body
  meshes : ℕ → Mesh
  grabbedBody : Option ℕ
  grabbedMesh : Option ℕ
  grabOffset : Vec3
  grabHeight : ℚ
  useConstraintGrab : Bool
  constraintPaused : Bool
  localGrabPoint : Vec3
  /-- Position of the kinematic joint anchor body (`this.jointBody`),
  `none` when the body is absent. -/
  jointBody : Option Vec3
  /-- Whether `this.jointConstraint` is non-null. -/
  jointConstraint : Bool
  initialGrabMouseY : ℚ
  /-- Squared `this.initialGrabDistance` (squared to stay rational). -/
  initialGrabDistanceSq : ℚ
  /-- Squared `this.currentGrabDistance`. -/
  currentGrabDistanceSq : ℚ
  isNearMouth : Bool
  depthProgress : ℚ
  laggedPosition : Option Vec3
  prevGrabPosition : Option Vec3
  grabVelocity : Vec3

/-- `PhysicsWorld`'s constructor state for given body/mesh registries. -/
def initPW (bodies : ℕ → Option Body) (meshes : ℕ → Mesh) : PW :=
  { bodies := bodies, meshes := meshes,
    grabbedBody := none, grabbedMesh := none,
    grabOffset := Vec3.zero, grabHeight := 0,
    useConstraintGrab := false, constraintPaused := false,
    localGrabPoint := Vec3.zero, jointBody := none, jointConstraint := false,
    initialGrabMouseY := 0, initialGrabDistanceSq := 0,
    currentGrabDistanceSq := 0, isNearMouth := false, depthProgress := 0,
    laggedPosition := none, prevGrabPosition := none,
    grabVelocity := Vec3.zero }

/-- Update one body in the registry (mutation of a direct reference). -/
def updateBody (bodies : ℕ → Option Body) (i : ℕ) (f : Body → Body) :
    ℕ → Option Body :=
  fun n => if n = i then (bodies i).map f else bodies n

/-- `this.mouse.y = -(mouseY / window.innerHeight) * 2 + 1`. -/
def normMouseY (pxY winH : ℚ) : ℚ := -(pxY / winH) * 2 + 1

/-- Inputs of one `tryGrab` call.  `hit` is the raycast oracle: the root
grabbable object under the pointer together with the world hit point, or
`none` when nothing was hit. -/
structure TryIn where
  hit : Option (ℕ × Vec3)
  mousePxX : ℚ
  mousePxY : ℚ
  winW : ℚ
  winH : ℚ
  camPos : Vec3

/-- `tryGrab`: on a hit whose root maps to a positive-mass body, record
the session fields, pick constraint grab for the cigarette (joint anchor
at the hit point, raised damping) and kinematic grab otherwise; return
`false` and change nothing when nothing was hit, the lookup missed or the
body is static. -/
def tryGrab (inp : TryIn) (s : PW) : PW × Bool :=
  match inp.hit with
  | none => (s, false)
  | some h =>
    match s.bodies h.1 with
    | none => (s, false)
    | some body =>
      if 0 < body.mass then
        let mouseY := normMouseY inp.mousePxY inp.winH
        let mesh := s.meshes h.1
        let isCigarette : Bool := mesh.name == "cigarette"
        let s1 := { s with
          grabbedMesh := some h.1, grabbedBody := some h.1,
          grabHeight := h.2.y,
          grabOffset := Vec3.sub h.2 mesh.position,
          initialGrabMouseY := mouseY,
          initialGrabDistanceSq := Vec3.distSq inp.camPos mesh.position,
          currentGrabDistanceSq := Vec3.distSq inp.camPos mesh.position,
          isNearMouth := false,
          useConstraintGrab := isCigarette }
        if isCigarette then
          let localPoint := Vec3.sub h.2 body.position
          ({ s1 with
              localGrabPoint := Quat.vmult (Quat.conjugate body.quaternion) localPoint,
              jointBody := some h.2,
              jointConstraint := true,
              bodies := updateBody s.bodies h.1
                (fun b => { b with linearDamping := 0.9, angularDamping := 0.9 }) },
            true)
        else
          ({ s1 with
              bodies := updateBody s.bodies h.1
                (fun b => { b with btype := BType.kinematic }) },
            true)
      else (s, false)

/-- Inputs of one `updateGrab` call.  `planePoint` is the three.js
ray/plane intersection at grab height (the source's `if (intersection)`
guard tests the always-truthy target `Vector3`, so no branch exists);
`l2w` is `camera.localToWorld`; `camDir` is `camera.getWorldDirection`;
`timeNow` is `performance.now()`. -/
structure UpdateIn where
  mousePxX : ℚ
  mousePxY : ℚ
  winW : ℚ
  winH : ℚ
  planePoint : Vec3
  l2w : Vec3 → Vec3
  camDir : Vec3
  timeNow : ℚ
  drinkScore : ℚ
  smokeScore : ℚ

/-- The depth-progress computed by `updateGrab`: vertical pointer delta
since grab start, scaled by 2.0 and clamped to `[0, 1]`. -/
def depthOf (inp : UpdateIn) (s : PW) : ℚ :=
  max 0 (min 1 ((s.initialGrabMouseY - normMouseY inp.mousePxY inp.winH) * 2.0))

/-- The mode-dependent tail of `updateGrab`: the one-way
constraint→kinematic latch, joint-anchor move or direct kinematic
placement, applied to the state `sBase` that already carries this frame's
depth/lag/velocity tracking fields. -/
def grabBranchUpdate (E : MathExt) (inp : UpdateIn) (bid : ℕ) (depth : ℚ)
    (finalPos : Vec3) (sBase : PW) : PW :=
  if sBase.useConstraintGrab then
    -- once in kinematic mode, stay there until release (no going back)
    let s2 :=
      if depth > 0.6 ∧ sBase.constraintPaused = false ∧ sBase.jointBody.isSome then
        { sBase with
          jointBody := none, jointConstraint := false,
          constraintPaused := true,
          bodies := updateBody sBase.bodies bid
            (fun b => { b with btype := BType.kinematic,
                               velocity := Vec3.zero,
                               angularVelocity := Vec3.zero }) }
      else sBase
    if s2.constraintPaused then
      let yaw := E.atan2E inp.camDir.x inp.camDir.z
      let targetQuat := E.eulerYZ (yaw - E.piE / 2) 0.2
      match s2.grabbedMesh with
      | some mid =>
        let mq := E.slerpE (s2.meshes mid).quaternion targetQuat 0.15
        { s2 with
          meshes := fun n => if n = mid then
              { s2.meshes mid with quaternion := mq, position := finalPos }
            else s2.meshes n,
          bodies := updateBody s2.bodies bid
            (fun b => { b with position := finalPos,
                               velocity := Vec3.zero,
                               angularVelocity := Vec3.zero,
                               quaternion := mq }) }
      | none => s2
    else if s2.jointBody.isSome then
      { s2 with jointBody := some finalPos }
    else s2
  else
    { sBase with
      bodies := updateBody sBase.bodies bid
        (fun b => { b with position := finalPos, velocity := Vec3.zero }) }

/-- `updateGrab`: lag-filtered, shake-jittered pointer tracking with the
one-way constraint→kinematic latch; returns
`this.isNearMouth && !wasNearMouth`. -/
def updateGrab (E : MathExt) (inp : UpdateIn) (s : PW) : PW × Bool :=
  match s.grabbedBody with
  | none => (s, false)
  | some bid =>
    let depth := depthOf inp s
    let isCigarette : Bool := match s.grabbedMesh with
      | some mid => (s.meshes mid).name == "cigarette"
      | none => false
    let mouthY : ℚ := if isCigarette then -0.15 else -0.075
    let mouthZ : ℚ := if isCigarette then -0.25 else -0.15
    let mouthPos := inp.l2w ⟨0, mouthY, mouthZ⟩
    let targetPos := Vec3.setY (Vec3.lerpV inp.planePoint mouthPos depth)
      (lerpQ s.grabHeight mouthPos.y depth)
    let lagFactor := max 0.03 (1 - inp.smokeScore * 0.25)
    let lagged := match s.laggedPosition with
      | none => targetPos          -- clone, then lerp onto itself
      | some lp => Vec3.lerpV lp targetPos lagFactor
    let finalPos := if 0 < inp.drinkScore then
        let shakeIntensity := min (inp.drinkScore * 0.002) 0.008
        let t := inp.timeNow * 0.025
        (⟨lagged.x + E.sinE (t * 4.1) * shakeIntensity,
          lagged.y + E.sinE (t * 5.3) * shakeIntensity * 0.6,
          lagged.z + E.cosE (t * 3.7) * shakeIntensity⟩ : Vec3)
      else lagged
    let grabVel := match s.prevGrabPosition with
      | some p => Vec3.smul 60 (Vec3.sub finalPos p)
      | none => s.grabVelocity
    let sBase := { s with
      depthProgress := depth, laggedPosition := some lagged,
      prevGrabPosition := some finalPos, grabVelocity := grabVel }
    let sBranch := grabBranchUpdate E inp bid depth finalPos sBase
    let isNear := decide (depth > 0.85)
    ({ sBranch with
        currentGrabDistanceSq := Vec3.distSq targetPos mouthPos,
        isNearMouth := isNear },
      isNear && !s.isNearMouth)

/-- `release`: tear down any joint, restore Dynamic mode and baseline
damping for constraint grabs; restore Dynamic mode and inject release
momentum (three `Math.random()` draws `r1 r2 r3`) for kinematic grabs;
clear the session. -/
def release (r1 r2 r3 : ℚ) (s : PW) : PW :=
  match s.grabbedBody with
  | none => s
  | some bid =>
    let s1 :=
      if s.useConstraintGrab then
        { s with
          jointConstraint := false, jointBody := none,
          constraintPaused := false,
          bodies := updateBody s.bodies bid
            (fun b => { b with btype := BType.dynamic,
                               linearDamping := 0.3,
                               angularDamping := 0.5 }) }
      else
        { s with
          bodies := updateBody s.bodies bid
            (fun b => { b with btype := BType.dynamic,
                               velocity := Vec3.smul 0.5 s.grabVelocity,
                               angularVelocity :=
                                 ⟨(r1 - 0.5) * 3 + s.grabVelocity.z * 0.5,
                                  (r2 - 0.5) * 3,
                                  (r3 - 0.5) * 3 - s.grabVelocity.x * 0.5⟩ }) }
    { s1 with
      grabbedBody := none, grabbedMesh := none,
      useConstraintGrab := false, laggedPosition := none,
      prevGrabPosition := none, grabVelocity := Vec3.zero }

/-- Iterated `updateGrab` over a list of per-frame inputs. -/
def runGrab (E : MathExt) (l : List UpdateIn) (s : PW) : PW :=
  l.foldl (fun st inp => (updateGrab E inp st).1) s

/-! ### Lemmas about one `updateGrab` step -/

lemma grabBranchUpdate_grabbedBody (E : MathExt) (inp : UpdateIn) (bid : ℕ)
    (depth : ℚ) (finalPos : Vec3) (sBase : PW) :
    (grabBranchUpdate E inp bid depth finalPos sBase).grabbedBody =
      sBase.grabbedBody := by
  unfold grabBranchUpdate
  dsimp only
  repeat' split
  all_goals rfl

lemma grabBranchUpdate_grabbedMesh (E : MathExt) (inp : UpdateIn) (bid : ℕ)
    (depth : ℚ) (finalPos : Vec3) (sBase : PW) :
    (grabBranchUpdate E inp bid depth finalPos sBase).grabbedMesh =
      sBase.grabbedMesh := by
  unfold grabBranchUpdate
  dsimp only
  repeat' split
  all_goals rfl

lemma grabBranchUpdate_initialGrabMouseY (E : MathExt) (inp : UpdateIn) (bid : ℕ)
    (depth : ℚ) (finalPos : Vec3) (sBase : PW) :
    (grabBranchUpdate E inp bid depth finalPos sBase).initialGrabMouseY =
      sBase.initialGrabMouseY := by
  unfold grabBranchUpdate
  dsimp only
  repeat' split
  all_goals rfl

lemma grabBranchUpdate_useConstraintGrab (E : MathExt) (inp : UpdateIn) (bid : ℕ)
    (depth : ℚ) (finalPos : Vec3) (sBase : PW) :
    (grabBranchUpdate E inp bid depth finalPos sBase).useConstraintGrab =
      sBase.useConstraintGrab := by
  unfold grabBranchUpdate
  dsimp only
  repeat' split
  all_goals rfl

lemma grabBranchUpdate_grabHeight (E : MathExt) (inp : UpdateIn) (bid : ℕ)
    (depth : ℚ) (finalPos : Vec3) (sBase : PW) :
    (grabBranchUpdate E inp bid depth finalPos sBase).grabHeight =
      sBase.grabHeight := by
  unfold grabBranchUpdate
  dsimp only
  repeat' split
  all_goals rfl

/-- Step behaviour of the near-mouth edge detector, and the session fields
`updateGrab` never changes. -/
lemma updateGrab_spec (E : MathExt) (inp : UpdateIn) (s : PW) (bid : ℕ)
    (h : s.grabbedBody = some bid) :
    (updateGrab E inp s).2 =
      (decide (depthOf inp s > 0.85) && !s.isNearMouth) ∧
    (updateGrab E inp s).1.isNearMouth = decide (depthOf inp s > 0.85) ∧
    (updateGrab E inp s).1.grabbedBody = s.grabbedBody ∧
    (updateGrab E inp s).1.grabbedMesh = s.grabbedMesh ∧
    (updateGrab E inp s).1.initialGrabMouseY = s.initialGrabMouseY ∧
    (updateGrab E inp s).1.useConstraintGrab = s.useConstraintGrab ∧
    (updateGrab E inp s).1.grabHeight = s.grabHeight := by
  unfold updateGrab
  rw [h]
  dsimp only
  refine ⟨rfl, rfl, ?_, ?_, ?_, ?_, ?_⟩
  · rw [grabBranchUpdate_grabbedBody]
  · rw [grabBranchUpdate_grabbedMesh]
  · rw [grabBranchUpdate_initialGrabMouseY]
  · rw [grabBranchUpdate_useConstraintGrab]
  · rw [grabBranchUpdate_grabHeight]

/-! ### Latch lemmas -/

/-- The latched smoking mode: constraint gone, joint gone, body Kinematic,
`constraintPaused` set, within a constraint-grab session on body `bid`. -/
def Latched (s : PW) (bid : ℕ) : Prop :=
  s.grabbedBody = some bid ∧ s.useConstraintGrab = true ∧
  s.constraintPaused = true ∧ s.jointBody = none ∧ s.jointConstraint = false ∧
  ∀ b, s.bodies bid = some b → b.btype = BType.kinematic

lemma grabBranchUpdate_keeps_latch (E : MathExt) (inp : UpdateIn) (bid : ℕ)
    (depth : ℚ) (finalPos : Vec3) (sBase : PW)
    (hu : sBase.useConstraintGrab = true) (hp : sBase.constraintPaused = true)
    (hj : sBase.jointBody = none) (hc : sBase.jointConstraint = false)
    (hb : ∀ b, sBase.bodies bid = some b → b.btype = BType.kinematic) :
    (grabBranchUpdate E inp bid depth finalPos sBase).constraintPaused = true ∧
    (grabBranchUpdate E inp bid depth finalPos sBase).jointBody = none ∧
    (grabBranchUpdate E inp bid depth finalPos sBase).jointConstraint = false ∧
    ∀ b, (grabBranchUpdate E inp bid depth finalPos sBase).bodies bid = some b →
      b.btype = BType.kinematic := by
  unfold grabBranchUpdate
  dsimp only
  have hcond : ¬(depth > 0.6 ∧ sBase.constraintPaused = false ∧
      sBase.jointBody.isSome = true) := by
    rintro ⟨-, hfalse, -⟩
    rw [hp] at hfalse
    cases hfalse
  rw [if_pos hu, if_neg hcond, if_pos hp]
  cases hm : sBase.grabbedMesh with
  | none => exact ⟨hp, hj, hc, hb⟩
  | some mid =>
    refine ⟨hp, hj, hc, ?_⟩
    intro b hbb
    simp only [updateBody, eq_self_iff_true, if_true] at hbb
    cases hval : sBase.bodies bid with
    | none => rw [hval] at hbb; cases hbb
    | some b0 =>
      rw [hval] at hbb
      simp only [Option.map_some', Option.some_inj] at hbb
      have hbt : b.btype = b0.btype := by rw [← hbb]
      rw [hbt]
      exact hb b0 hval

lemma grabBranchUpdate_enters_latch (E : MathExt) (inp : UpdateIn) (bid : ℕ)
    (depth : ℚ) (finalPos : Vec3) (sBase : PW)
    (hu : sBase.useConstraintGrab = true) (hp : sBase.constraintPaused = false)
    (hj : sBase.jointBody.isSome = true) (hd : depth > 0.6) :
    (grabBranchUpdate E inp bid depth finalPos sBase).constraintPaused = true ∧
    (grabBranchUpdate E inp bid depth finalPos sBase).jointBody = none ∧
    (grabBranchUpdate E inp bid depth finalPos sBase).jointConstraint = false ∧
    ∀ b, (grabBranchUpdate E inp bid depth finalPos sBase).bodies bid = some b →
      b.btype = BType.kinematic := by
  unfold grabBranchUpdate
  dsimp only
  have htd : depth > 0.6 ∧ sBase.constraintPaused = false ∧
      sBase.jointBody.isSome = true := ⟨hd, hp, hj⟩
  rw [if_pos hu, if_pos htd]
  dsimp only
  simp only [eq_self_iff_true, if_true]
  cases hm : sBase.grabbedMesh with
  | none =>
    refine ⟨rfl, rfl, rfl, ?_⟩
    intro b hbb
    simp only [updateBody, eq_self_iff_true, if_true] at hbb
    cases hval : sBase.bodies bid with
    | none => rw [hval] at hbb; cases hbb
    | some b0 =>
      rw [hval] at hbb
      simp only [Option.map_some', Option.some_inj] at hbb
      rw [← hbb]
  | some mid =>
    refine ⟨rfl, rfl, rfl, ?_⟩
    intro b hbb
    simp only [updateBody, eq_self_iff_true, if_true] at hbb
    cases hval : sBase.bodies bid with
    | none => rw [hval] at hbb; cases hbb
    | some b0 =>
      rw [hval] at hbb
      simp only [Option.map_some', Option.some_inj] at hbb
      rw [← hbb]

lemma updateGrab_keeps_latch (E : MathExt) (inp : UpdateIn) (s : PW) (bid : ℕ)
    (hL : Latched s bid) : Latched (updateGrab E inp s).1 bid := by
  obtain ⟨hg, hu, hp, hj, hc, hb⟩ := hL
  unfold updateGrab
  rw [hg]
  dsimp only
  refine ⟨?_, ?_, ?_, ?_, ?_, ?_⟩
  · rw [grabBranchUpdate_grabbedBody]
  · rw [grabBranchUpdate_useConstraintGrab]; exact hu
  · refine (grabBranchUpdate_keeps_latch E inp bid ?_ ?_ ?_ ?_ ?_ ?_ ?_ ?_).1 <;>
      first
        | exact hu | exact hp | exact hj | exact hc | exact hb
  · refine (grabBranchUpdate_keeps_latch E inp bid ?_ ?_ ?_ ?_ ?_ ?_ ?_ ?_).2.1 <;>
      first
        | exact hu | exact hp | exact hj | exact hc | exact hb
  · refine (grabBranchUpdate_keeps_latch E inp bid ?_ ?_ ?_ ?_ ?_ ?_ ?_ ?_).2.2.1 <;>
      first
        | exact hu | exact hp | exact hj | exact hc | exact hb
  · refine (grabBranchUpdate_keeps_latch E inp bid ?_ ?_ ?_ ?_ ?_ ?_ ?_ ?_).2.2.2 <;>
      first
        | exact hu | exact hp | exact hj | exact hc | exact hb

lemma updateGrab_enters_latch (E : MathExt) (inp : UpdateIn) (s : PW) (bid : ℕ)
    (hg : s.grabbedBody = some bid) (hu : s.useConstraintGrab = true)
    (hp : s.constraintPaused = false) (hj : s.jointBody.isSome = true)
    (hd : depthOf inp s > 0.6) : Latched (updateGrab E inp s).1 bid := by
  unfold updateGrab
  rw [hg]
  dsimp only
  refine ⟨?_, ?_, ?_, ?_, ?_, ?_⟩
  · rw [grabBranchUpdate_grabbedBody]
  · rw [grabBranchUpdate_useConstraintGrab]; exact hu
  · refine (grabBranchUpdate_enters_latch E inp bid ?_ ?_ ?_ ?_ ?_ ?_ ?_).1 <;>
      first
        | exact hu | exact hp | exact hj | exact hd
  · refine (grabBranchUpdate_enters_latch E inp bid ?_ ?_ ?_ ?_ ?_ ?_ ?_).2.1 <;>
      first
        | exact hu | exact hp | exact hj | exact hd
  · refine (grabBranchUpdate_enters_latch E inp bid ?_ ?_ ?_ ?_ ?_ ?_ ?_).2.2.1 <;>
      first
        | exact hu | exact hp | exact hj | exact hd
  · refine (grabBranchUpdate_enters_latch E inp bid ?_ ?_ ?_ ?_ ?_ ?_ ?_).2.2.2 <;>
      first
        | exact hu | exact hp | exact hj | exact hd

lemma runGrab_keeps_latch (E : MathExt) (bid : ℕ) :
    ∀ (l : List UpdateIn) (s : PW), Latched s bid →
      Latched (runGrab E l s) bid := by
  intro l
  induction l with
  | nil => intro s h; exact h
  | cons inp t ih =>
    intro s h
    exact ih _ (updateGrab_keeps_latch E inp s bid h)

/-! ### Concrete grab scenarios -/

/-- A dynamic cup body standing on the table. -/
def cupBodyW : Body :=
  { mass := 1, btype := BType.dynamic, position := ⟨0, 4/5, 0⟩,
    velocity := Vec3.zero, angularVelocity := Vec3.zero,
    quaternion := Quat.id, linearDamping := 3/10, angularDamping := 1/2 }

/-- The cup's mesh (not named `cigarette`, so kinematic grab applies). -/
def cupMeshW : Mesh := ⟨⟨0, 4/5, 0⟩, Quat.id, "cup"⟩

/-- World with the single grabbable cup registered as body/mesh 0. -/
def pwCup : PW :=
  initPW (fun n => if n = 0 then some cupBodyW else none) (fun _ => cupMeshW)

/-- Pointer press on the cup; `winH = 2`, `pixelY = 1` gives normalised
mouse y `0`. -/
def tinCup : TryIn :=
  { hit := some (0, ⟨0, 4/5, 0⟩), mousePxX := 0, mousePxY := 1,
    winW := 2, winH := 2, camPos := ⟨0, 1, 1⟩ }

/-- A frame with the pointer dragged down (normalised y `-1/2`, so
depth-progress `1`), no drink/smoke effects. -/
def uinDown : UpdateIn :=
  { mousePxX := 0, mousePxY := 3/2, winW := 2, winH := 2,
    planePoint := ⟨0, 4/5, 0⟩, l2w := fun v => v, camDir := ⟨0, 0, 1⟩,
    timeNow := 0, drinkScore := 0, smokeScore := 0 }

/-- A frame with the pointer back at its press position (depth `0`). -/
def uinUp : UpdateIn :=
  { mousePxX := 0, mousePxY := 1, winW := 2, winH := 2,
    planePoint := ⟨0, 4/5, 0⟩, l2w := fun v => v, camDir := ⟨0, 0, 1⟩,
    timeNow := 0, drinkScore := 0, smokeScore := 0 }

/-- Session fields established by a successful cup grab. -/
lemma tryGrab_cup_fields :
    (tryGrab tinCup pwCup).1.grabbedBody = some 0 ∧
    (tryGrab tinCup pwCup).1.isNearMouth = false ∧
    (tryGrab tinCup pwCup).1.initialGrabMouseY = 0 ∧
    (tryGrab tinCup pwCup).2 = true := by
  have hmass : (0 : ℚ) < cupBodyW.mass := by norm_num [cupBodyW]
  unfold tryGrab tinCup pwCup initPW
  dsimp only
  rw [if_pos (rfl : (0 : ℕ) = 0)]
  dsimp only
  rw [if_pos hmass,
    if_neg (by decide : ¬((cupMeshW.name == "cigarette") = true))]
  norm_num [normMouseY]

/-- **C2 (amended).** Within a grab session, `updateGrab` returns `true`
exactly on the frames where depth-progress (vertical pointer delta since
grab start, scaled by 2.0 and clamped to [0,1]) exceeds 0.85 while the
near-mouth flag was still clear — a rising-edge detector.  Since the flag
is recomputed every frame as `depth > 0.85` (second conjunct) and
`tryGrab` starts the session with the flag clear, the signal fires on the
first frame depth-progress exceeds 0.85, but fires again each time depth
drops to 0.85 or below and later re-crosses it; it is not a once-per-
session latch. -/
theorem C2_target_zone_rising_edge (E : MathExt) (inp : UpdateIn) (s : PW)
    (bid : ℕ) (h : s.grabbedBody = some bid) :
    ((updateGrab E inp s).2 = true ↔
      depthOf inp s > 0.85 ∧ s.isNearMouth = false) ∧
    (updateGrab E inp s).1.isNearMouth = decide (depthOf inp s > 0.85) ∧
    (updateGrab E inp s).1.grabbedBody = s.grabbedBody ∧
    (updateGrab E inp s).1.initialGrabMouseY = s.initialGrabMouseY := by
  obtain ⟨h1, h2, h3, -, h5, -, -⟩ := updateGrab_spec E inp s bid h
  refine ⟨?_, h2, h3, h5⟩
  rw [h1]
  simp [Bool.and_eq_true, decide_eq_true_eq, Bool.not_eq_true']

/-- **C2 counterexample.** A session in which `updateGrab` returns `true`
on two distinct frames: the pointer is dragged down (depth 1 > 0.85,
frame 1, `true`), released back up (depth 0, frame 2, `false`), and
dragged down again (depth 1, frame 3, `true` again).  Frame 3 is not the
frame on which depth-progress first exceeded 0.85, refuting "does not
return true on any other frame of that session". -/
theorem C2_counterexample :
    (updateGrab mathExt0 uinDown (tryGrab tinCup pwCup).1).2 = true ∧
    (updateGrab mathExt0 uinUp
      (updateGrab mathExt0 uinDown (tryGrab tinCup pwCup).1).1).2 = false ∧
    (updateGrab mathExt0 uinDown
      (updateGrab mathExt0 uinUp
        (updateGrab mathExt0 uinDown (tryGrab tinCup pwCup).1).1).1).2 =
      true := by
  obtain ⟨hg, hn, hi, -⟩ := tryGrab_cup_fields
  have h1 := updateGrab_spec mathExt0 uinDown (tryGrab tinCup pwCup).1 0 hg
  have d1 : depthOf uinDown (tryGrab tinCup pwCup).1 = 1 := by
    unfold depthOf
    rw [hi]
    norm_num [normMouseY, uinDown]
  have hg2 := h1.2.2.1.trans hg
  have hi2 := h1.2.2.2.2.1.trans hi
  have h2 := updateGrab_spec mathExt0 uinUp _ 0 hg2
  have d2 : depthOf uinUp
      (updateGrab mathExt0 uinDown (tryGrab tinCup pwCup).1).1 = 0 := by
    unfold depthOf
    rw [hi2]
    norm_num [normMouseY, uinUp]
  have hg3 := h2.2.2.1.trans hg2
  have hi3 := h2.2.2.2.2.1.trans hi2
  have h3 := updateGrab_spec mathExt0 uinDown _ 0 hg3
  have d3 : depthOf uinDown
      (updateGrab mathExt0 uinUp
        (updateGrab mathExt0 uinDown (tryGrab tinCup pwCup).1).1).1 = 1 := by
    unfold depthOf
    rw [hi3]
    norm_num [normMouseY, uinDown]
  have hbig : decide ((1 : ℚ) > 0.85) = true := decide_eq_true (by norm_num)
  have hsmall : decide ((0 : ℚ) > 0.85) = false := decide_eq_false (by norm_num)
  have hn2 : (updateGrab mathExt0 uinDown
      (tryGrab tinCup pwCup).1).1.isNearMouth = true := by
    rw [h1.2.1, d1, hbig]
  have hn3 : (updateGrab mathExt0 uinUp
      (updateGrab mathExt0 uinDown
        (tryGrab tinCup pwCup).1).1).1.isNearMouth = false := by
    rw [h2.2.1, d2, hsmall]
  refine ⟨?_, ?_, ?_⟩
  · rw [h1.1, d1, hbig, hn]
    rfl
  · rw [h2.1, d2, hsmall]
    rfl
  · rw [h3.1, d3, hbig, hn3]
    rfl

/-- Witness for C2: the rising-edge theorem applied to the first frame of
the concrete cup session. -/
theorem C2_target_zone_rising_edge_witness :
    ((tryGrab tinCup pwCup).1.grabbedBody = some 0) ∧
    ((updateGrab mathExt0 uinDown (tryGrab tinCup pwCup).1).2 = true ↔
      depthOf uinDown (tryGrab tinCup pwCup).1 > 0.85 ∧
        (tryGrab tinCup pwCup).1.isNearMouth = false) :=
  ⟨tryGrab_cup_fields.1,
    (C2_target_zone_rising_edge mathExt0 uinDown (tryGrab tinCup pwCup).1 0
      tryGrab_cup_fields.1).1⟩

/-- **C7.** During a `ConstraintGrab` session, the first frame whose
depth-progress exceeds 0.6 tears the joint down, switches the body to
Kinematic and sets the latch; once latched, the latch, the absence of the
joint/constraint and the Kinematic body mode survive every further
`updateGrab` frame of the session — the transition never reverses before
release. -/
theorem C7_latch_is_one_way (E : MathExt) (s : PW) (bid : ℕ) :
    (∀ inp, s.grabbedBody = some bid → s.useConstraintGrab = true →
      s.constraintPaused = false → s.jointBody.isSome = true →
      depthOf inp s > 0.6 → Latched (updateGrab E inp s).1 bid) ∧
    (∀ inp, Latched s bid → Latched (updateGrab E inp s).1 bid) ∧
    (∀ l, Latched s bid → Latched (runGrab E l s) bid) :=
  ⟨fun inp hg hu hp hj hd => updateGrab_enters_latch E inp s bid hg hu hp hj hd,
   fun inp hL => updateGrab_keeps_latch E inp s bid hL,
   fun l hL => runGrab_keeps_latch E bid l s hL⟩

/-- The cigarette's mesh: its name selects the constraint grab. -/
def cigMeshW : Mesh := ⟨⟨0, 4/5, 0⟩, Quat.id, "cigarette"⟩

/-- The cigarette's dynamic body. -/
def cigBodyW : Body :=
  { mass := 1, btype := BType.dynamic, position := ⟨0, 4/5, 0⟩,
    velocity := Vec3.zero, angularVelocity := Vec3.zero,
    quaternion := Quat.id, linearDamping := 3/10, angularDamping := 1/2 }

/-- World with the single grabbable cigarette as body/mesh 0. -/
def pwCig : PW :=
  initPW (fun n => if n = 0 then some cigBodyW else none) (fun _ => cigMeshW)

/-- Session fields established by a successful cigarette grab. -/
lemma tryGrab_cig_fields :
    (tryGrab tinCup pwCig).1.grabbedBody = some 0 ∧
    (tryGrab tinCup pwCig).1.useConstraintGrab = true ∧
    (tryGrab tinCup pwCig).1.constraintPaused = false ∧
    (tryGrab tinCup pwCig).1.jointBody.isSome = true ∧
    (tryGrab tinCup pwCig).1.initialGrabMouseY = 0 := by
  have hmass : (0 : ℚ) < cigBodyW.mass := by norm_num [cigBodyW]
  unfold tryGrab tinCup pwCig initPW
  dsimp only
  rw [if_pos (rfl : (0 : ℕ) = 0)]
  dsimp only
  rw [if_pos hmass,
    if_pos (by decide : (cigMeshW.name == "cigarette") = true)]
  norm_num [normMouseY, cigMeshW]

/-- Witness for C7: one deep frame of the concrete cigarette session
enters the latched state. -/
theorem C7_latch_is_one_way_witness :
    depthOf uinDown (tryGrab tinCup pwCig).1 > 0.6 ∧
    Latched (updateGrab mathExt0 uinDown (tryGrab tinCup pwCig).1).1 0 := by
  obtain ⟨hg, hu, hp, hj, hi⟩ := tryGrab_cig_fields
  have hd : depthOf uinDown (tryGrab tinCup pwCig).1 > 0.6 := by
    unfold depthOf
    rw [hi]
    norm_num [normMouseY, uinDown]
  exact ⟨hd,
    (C7_latch_is_one_way mathExt0 (tryGrab tinCup pwCig).1 0).1
      uinDown hg hu hp hj hd⟩

/-- **C8.** `tryGrab` returns `false` and leaves the entire world state
unchanged — no session fields, no constraint, no body mode — whenever the
ray hits nothing, the hit root has no registered body, or the body's mass
is not positive (static). -/
theorem C8_tryGrab_rejects_static_and_miss (inp : TryIn) (s : PW)
    (h : inp.hit = none ∨
      ∃ r p, inp.hit = some (r, p) ∧
        (s.bodies r = none ∨ ∃ b, s.bodies r = some b ∧ ¬ 0 < b.mass)) :
    tryGrab inp s = (s, false) := by
  rcases h with h | ⟨r, p, hh, hcase⟩
  · unfold tryGrab
    rw [h]
  · rcases hcase with hb | ⟨b, hb, hm⟩
    · unfold tryGrab
      rw [hh]
      dsimp only
      rw [hb]
    · unfold tryGrab
      rw [hh]
      dsimp only
      rw [hb]
      dsimp only
      rw [if_neg hm]

/-- The static table surface (mass 0). -/
def pwTable : PW :=
  initPW (fun n => if n = 0 then some witnessGroundBody else none)
    (fun _ => ⟨Vec3.zero, Quat.id, "table"⟩)

/-- Pointer press on the static table. -/
def tinTable : TryIn :=
  { hit := some (0, ⟨0, 1, 0⟩), mousePxX := 0, mousePxY := 1,
    winW := 2, winH := 2, camPos := ⟨0, 1, 1⟩ }

/-- Witness for C8: grabbing the mass-0 table fails and changes nothing. -/
theorem C8_tryGrab_rejects_static_and_miss_witness :
    (¬ (0 : ℚ) < witnessGroundBody.mass) ∧
    tryGrab tinTable pwTable = (pwTable, false) :=
  ⟨by norm_num [witnessGroundBody],
    C8_tryGrab_rejects_static_and_miss tinTable pwTable
      (Or.inr ⟨0, ⟨0, 1, 0⟩, rfl,
        Or.inr ⟨witnessGroundBody, rfl, by norm_num [witnessGroundBody]⟩⟩)⟩

/-! ## VesselLiquidSimulator / DropletPhysics (src/src/sounds.js,
`LiquidSimulation`)

The heightfield arrays `heights` / `velocities` are flat arrays indexed
by `y * gridSize + x`, modelled as total functions `ℕ → ℚ` (every access
in the source goes through the bounds-guarded accessors or loop indices
inside the array, so the representations agree).  The per-cell loops of
the forcing and wave passes write each cell from values of the previous
state only, so they are modelled pointwise.  Rendering outputs
(`updateLiquidMesh`, `updateDistortionTexture`, the droplet instanced
mesh, shader time) are write-only external effects and are not part of
the state.  `Math.random()` draws are modelled by an input stream
`rnd : ℕ → ℚ` consumed at deterministic indices.  The droplet bodies'
positions/velocities evolve in the external physics world; their current
values are part of the droplet records read by `updateDroplets`. -/

/-- A `dropletBodies` entry: the body's current state plus
`{ lifetime, wasFalling, stained }`. -/
structure Droplet where
  position : Vec3
  velocity : Vec3
  lifetime : ℚ
  wasFalling : Bool
  stained : Bool
deriving DecidableEq

/-- A residue mark (`stains` entry). -/
structure Stain where
  position : Vec3
  scale : ℚ
  lifetime : ℚ
  maxLifetime : ℚ
  opacity : ℚ
deriving DecidableEq

/-- The mutable state of `LiquidSimulation`. -/
structure Liquid where
  gridSize : ℕ
  cupRadius : ℚ
  heights : ℕ → ℚ
  velocities : ℕ → ℚ
  liquidLevel : ℚ
  maxLiquidLevel : ℚ
  damping : ℚ
  waveSpeed : ℚ
  gravity : ℚ
  maxHeight : ℚ
  maxVelocity : ℚ
  velocityThreshold : ℚ
  spillThreshold : ℚ
  prevTiltX : ℚ
  prevTiltZ : ℚ
  tiltVelX : ℚ
  tiltVelZ : ℚ
  prevVelocity : Vec3
  cupAcceleration : Vec3
  cupVelocity : Vec3
  prevCupPos : Vec3
  initialized : Bool
  droplets : List Droplet
  maxDroplets : ℕ
  stains : List Stain
  maxStains : ℕ
  totalSpilled : ℚ
  physicsWorldPresent : Bool

/-- The constructor state of `LiquidSimulation` (after `initHeightfield`
pushed `gridSize²` zeros). -/
def initLiquid (physicsWorldPresent : Bool) : Liquid :=
  { gridSize := 32, cupRadius := 0.8,
    heights := fun _ => 0, velocities := fun _ => 0,
    liquidLevel := 0.9, maxLiquidLevel := 0.9,
    damping := 0.9, waveSpeed := 4.0, gravity := 2.5,
    maxHeight := 0.5, maxVelocity := 3.0, velocityThreshold := 0.01,
    spillThreshold := 0.2,
    prevTiltX := 0, prevTiltZ := 0, tiltVelX := 0, tiltVelZ := 0,
    prevVelocity := Vec3.zero, cupAcceleration := Vec3.zero,
    cupVelocity := Vec3.zero, prevCupPos := Vec3.zero,
    initialized := false,
    droplets := [], maxDroplets := 100,
    stains := [], maxStains := 50,
    totalSpilled := 0, physicsWorldPresent := physicsWorldPresent }

/-- `getHeight`: out-of-range grid reads return the neutral height 0. -/
def getHeight (s : Liquid) (x y : ℤ) : ℚ :=
  if x < 0 ∨ x ≥ (s.gridSize : ℤ) ∨ y < 0 ∨ y ≥ (s.gridSize : ℤ) then 0
  else s.heights (y * s.gridSize + x).toNat

/-- `setHeight`: out-of-range grid writes are dropped. -/
def setHeight (s : Liquid) (x y : ℤ) (h : ℚ) : Liquid :=
  if x < 0 ∨ x ≥ (s.gridSize : ℤ) ∨ y < 0 ∨ y ≥ (s.gridSize : ℤ) then s
  else { s with heights := fun i =>
    if i = (y * s.gridSize + x).toNat then h else s.heights i }

/-- `getVelocity`: out-of-range grid reads return the neutral velocity 0. -/
def getVelocity (s : Liquid) (x y : ℤ) : ℚ :=
  if x < 0 ∨ x ≥ (s.gridSize : ℤ) ∨ y < 0 ∨ y ≥ (s.gridSize : ℤ) then 0
  else s.velocities (y * s.gridSize + x).toNat

/-- `setVelocity`: out-of-range grid writes are dropped. -/
def setVelocity (s : Liquid) (x y : ℤ) (v : ℚ) : Liquid :=
  if x < 0 ∨ x ≥ (s.gridSize : ℤ) ∨ y < 0 ∨ y ≥ (s.gridSize : ℤ) then s
  else { s with velocities := fun i =>
    if i = (y * s.gridSize + x).toNat then v else s.velocities i }

/-- `resetHeightfield`: every cell's height and velocity to zero. -/
def resetHeightfield (s : Liquid) : Liquid :=
  { s with heights := fun _ => 0, velocities := fun _ => 0 }

/-- three.js `Vector3.normalize()`: `divideScalar(length || 1)`. -/
def normalize3 (E : MathExt) (v : Vec3) : Vec3 :=
  let l := E.sqrtE (Vec3.normSq v)
  if l = 0 then v else Vec3.smul (1 / l) v

/-- three.js `Vector3.clampLength(lo, hi)`. -/
def clampLength (E : MathExt) (v : Vec3) (lo hi : ℚ) : Vec3 :=
  let l := E.sqrtE (Vec3.normSq v)
  Vec3.smul (max lo (min hi l) / (if l = 0 then 1 else l)) v

/-- `applyPhysicsForces`: leveling, angular-inertia and
translational-inertia forcing of every cell (the per-cell loop is
pointwise in the previous state), plus the tilt-tracking update. -/
def applyPhysicsForces (E : MathExt) (tiltX tiltZ dt : ℚ) (s : Liquid) :
    Liquid :=
  let angularVelX := (tiltX - s.prevTiltX) / dt
  let angularVelZ := (tiltZ - s.prevTiltZ) / dt
  let angularAccelX := (angularVelX - s.tiltVelX) / dt
  let angularAccelZ := (angularVelZ - s.tiltVelZ) / dt
  let clampedAccelX := max (-50) (min 50 angularAccelX)
  let clampedAccelZ := max (-50) (min 50 angularAccelZ)
  { s with
    prevTiltX := tiltX, prevTiltZ := tiltZ,
    tiltVelX := angularVelX, tiltVelZ := angularVelZ,
    velocities := fun i =>
      if i < s.gridSize * s.gridSize then
        let gx := i % s.gridSize
        let gy := i / s.gridSize
        let relX := ((gx : ℚ) / ((s.gridSize : ℚ) - 1) - 0.5) * 2
        let relZ := ((gy : ℚ) / ((s.gridSize : ℚ) - 1) - 0.5) * 2
        let vel := s.velocities i
        let h := s.heights i
        let targetHeight :=
          -relZ * E.sinE tiltX * 1.5 - relX * E.sinE tiltZ * 1.5
        let gravityForce := (targetHeight - h) * s.gravity
        let angularInertiaForce :=
          -relZ * clampedAccelX * 0.08 - relX * clampedAccelZ * 0.08
        let transInertiaForce :=
          -relX * s.cupAcceleration.x * 0.6 + -relZ * s.cupAcceleration.z * 0.6
        let vel2 :=
          vel + (gravityForce + angularInertiaForce + transInertiaForce) * 0.5
        max (-s.maxVelocity) (min s.maxVelocity vel2)
      else s.velocities i }

/-- Whether flat index `i` is an interior cell
(`1 ≤ gx,gy ≤ gridSize - 2`). -/
def interiorCell (s : Liquid) (i : ℕ) : Prop :=
  i < s.gridSize * s.gridSize ∧
  1 ≤ i % s.gridSize ∧ i % s.gridSize < s.gridSize - 1 ∧
  1 ≤ i / s.gridSize ∧ i / s.gridSize < s.gridSize - 1

instance (s : Liquid) (i : ℕ) : Decidable (interiorCell s i) := by
  unfold interiorCell; infer_instance

/-- The wave-pass velocity of interior cell `i`: neighbour Laplacian,
damping, clamping and the small-oscillation snap to zero. -/
def waveCellVel (s : Liquid) (dt : ℚ) (i : ℕ) : ℚ :=
  let c := s.waveSpeed * dt
  let c2 := c * c
  let gx : ℤ := (i % s.gridSize : ℕ)
  let gy : ℤ := (i / s.gridSize : ℕ)
  let h := getHeight s gx gy
  let hLeft := getHeight s (gx - 1) gy
  let hRight := getHeight s (gx + 1) gy
  let hUp := getHeight s gx (gy - 1)
  let hDown := getHeight s gx (gy + 1)
  let laplacian := (hLeft + hRight + hUp + hDown) / 4 - h
  let vel := getVelocity s gx gy + laplacian * c2 * 50
  let vel2 := vel * s.damping
  let vel3 := max (-s.maxVelocity) (min s.maxVelocity vel2)
  if |vel3| < s.velocityThreshold ∧ |h| < s.velocityThreshold then 0 else vel3

/-- The wave-pass height of interior cell `i` (integrated from
`waveCellVel`, clamped, with the small-height snap to zero). -/
def waveCellHeight (s : Liquid) (dt : ℚ) (i : ℕ) : ℚ :=
  let gx : ℤ := (i % s.gridSize : ℕ)
  let gy : ℤ := (i / s.gridSize : ℕ)
  let h := getHeight s gx gy
  let vel := waveCellVel s dt i
  let newH := max (-s.maxHeight) (min s.maxHeight (h + vel * dt))
  if |newH| < s.velocityThreshold * 0.5 ∧ |vel| < s.velocityThreshold then 0
  else newH

/-- `updateWavePhysics`: the double-buffered discrete wave equation over
all interior cells (border cells keep their previous values). -/
def updateWavePhysics (dt : ℚ) (s : Liquid) : Liquid :=
  { s with
    velocities := fun i =>
      if interiorCell s i then waveCellVel s dt i else s.velocities i,
    heights := fun i =>
      if interiorCell s i then waveCellHeight s dt i else s.heights i }

/-- `spawnDroplet`: no-op without a physics world; otherwise evict the
oldest droplet when at capacity, then append a droplet at the rim point
with inherited cup velocity, outward push and jitter (`r1 r2 r3` are the
three `Math.random()` draws; `l2w` is `liquidMesh.localToWorld`). -/
def spawnDroplet (E : MathExt) (cupWorldPos : Vec3) (localX localZ : ℚ)
    (r1 r2 r3 : ℚ) (l2w : Vec3 → Vec3) (s : Liquid) : Liquid :=
  if s.physicsWorldPresent = false then s
  else
    let afterEvict :=
      if s.droplets.length ≥ s.maxDroplets then s.droplets.tail
      else s.droplets
    let spillPos := l2w ⟨localX, 0, localZ⟩
    let outwardDir := normalize3 E (Vec3.setY (Vec3.sub spillPos cupWorldPos) 0)
    let vel : Vec3 :=
      ⟨s.cupVelocity.x + outwardDir.x * 0.3 + (r1 - 0.5) * 0.1,
       s.cupVelocity.y + (r2 - 0.5) * 0.1,
       s.cupVelocity.z + outwardDir.z * 0.3 + (r3 - 0.5) * 0.1⟩
    { s with droplets := afterEvict ++
        [{ position := spillPos, velocity := vel, lifetime := 2.0,
           wasFalling := false, stained := false }] }

/-- Whether rim sample `i` spills: its grid point is in range and the
sampled height exceeds the tilt-modulated dynamic threshold. -/
def spillCond (E : MathExt) (cupTilt dynamicThreshold : ℚ) (s : Liquid)
    (i : ℕ) : Bool :=
  let angle := ((i : ℚ) / 16) * E.piE * 2
  let rimX := E.cosE angle * s.cupRadius * 0.9
  let rimZ := E.sinE angle * s.cupRadius * 0.9
  let gx : ℤ := round ((rimX / s.cupRadius / 2 + 0.5) * ((s.gridSize : ℚ) - 1))
  let gy : ℤ := round ((rimZ / s.cupRadius / 2 + 0.5) * ((s.gridSize : ℚ) - 1))
  if gx < 0 ∨ gx ≥ (s.gridSize : ℤ) ∨ gy < 0 ∨ gy ≥ (s.gridSize : ℤ) then false
  else
    decide (getHeight s gx gy >
      dynamicThreshold - E.sinE angle * E.sinE cupTilt * 0.03)

/-- The world-space rim coordinates of sample `i` (`rimX`, `rimZ`). -/
def rimXZ (E : MathExt) (s : Liquid) (i : ℕ) : ℚ × ℚ :=
  let angle := ((i : ℚ) / 16) * E.piE * 2
  (E.cosE angle * s.cupRadius * 0.9, E.sinE angle * s.cupRadius * 0.9)

/-- One rim sample of `checkSpills`: on a spill, spawn a droplet (three
random draws), add `0.001` to the spilled telemetry and decrement the
level by `0.002`, floored at 0. -/
def spillRimStep (E : MathExt) (cupWorldPos : Vec3) (cupTilt : ℚ)
    (rnd : ℕ → ℚ) (l2w : Vec3 → Vec3) (dynamicThreshold : ℚ)
    (acc : Liquid × ℕ) (i : ℕ) : Liquid × ℕ :=
  if spillCond E cupTilt dynamicThreshold acc.1 i then
    let s' := spawnDroplet E cupWorldPos (rimXZ E acc.1 i).1 (rimXZ E acc.1 i).2
      (rnd acc.2) (rnd (acc.2 + 1)) (rnd (acc.2 + 2)) l2w acc.1
    ({ s' with totalSpilled := s'.totalSpilled + 0.001,
               liquidLevel := max 0 (s'.liquidLevel - 0.002) }, acc.2 + 3)
  else acc

/-- `checkSpills`: sample 16 rim points against the dynamic threshold
(computed once from the entry level). -/
def checkSpills (E : MathExt) (cupWorldPos : Vec3) (cupTilt : ℚ)
    (rnd : ℕ → ℚ) (l2w : Vec3 → Vec3) (s : Liquid) : Liquid :=
  let levelRatio := s.liquidLevel / s.maxLiquidLevel
  let dynamicThreshold := s.spillThreshold + (1 - levelRatio) * 0.4
  ((List.range 16).foldl
    (spillRimStep E cupWorldPos cupTilt rnd l2w dynamicThreshold) (s, 0)).1

/-- `createStain`: evict the oldest mark at the 50-cap, then append a
fresh mark (`rnd` is the size-variation `Math.random()` draw). -/
def createStain (x y z rnd : ℚ) (s : Liquid) : Liquid :=
  let afterEvict :=
    if s.stains.length ≥ s.maxStains then s.stains.tail else s.stains
  { s with stains := afterEvict ++
      [{ position := ⟨x, y, z⟩, scale := 0.8 + rnd * 0.4,
         lifetime := 15.0, maxLifetime := 15.0, opacity := 0.6 }] }

/-- The ground height used by `updateDroplets`. -/
def groundHeight : ℚ := 0.0

/-- One droplet's per-frame decision: `none` with an optional stain
position when the droplet is removed (impact, ground or expiry), or the
advanced droplet.  `hitSomething` is computed from the pre-update
`wasFalling` and the decremented lifetime; the removal test uses the
updated `wasFalling`. -/
def dropletStep (E : MathExt) (dt : ℚ) (d : Droplet) :
    Option Droplet × Option Vec3 :=
  let lifetime2 := d.lifetime - dt
  let speed := E.sqrtE (Vec3.normSq d.velocity)
  let hitSomething :=
    (d.wasFalling && decide (d.velocity.y ≥ -0.05)) ||
    (decide (speed < 0.3) && decide (lifetime2 < 1.8))
  let wasFalling2 := d.wasFalling || decide (d.velocity.y < -0.5)
  if hitSomething = true ∧ d.stained = false ∧ wasFalling2 = true then
    (none, some ⟨d.position.x, d.position.y + 0.001, d.position.z⟩)
  else if d.position.y ≤ groundHeight + 0.02 ∧ d.stained = false then
    (none, some ⟨d.position.x, groundHeight + 0.001, d.position.z⟩)
  else if lifetime2 ≤ 0 then
    (none, if d.stained then none
      else some ⟨d.position.x, d.position.y + 0.001, d.position.z⟩)
  else
    (some { d with lifetime := lifetime2, wasFalling := wasFalling2 }, none)

/-- `updateDroplets`: the reverse-index loop with `splice` is modelled as
a right fold; removed droplets deposit stains (one random draw each), the
survivors keep their order.  The instanced-mesh rendering tail is a
write-only external effect. -/
def updateDroplets (E : MathExt) (dt : ℚ) (rnd : ℕ → ℚ) (s : Liquid) :
    Liquid :=
  let r := s.droplets.foldr
    (fun d (acc : List Droplet × Liquid × ℕ) =>
      match dropletStep E dt d with
      | (some d2, _) => (d2 :: acc.1, acc.2.1, acc.2.2)
      | (none, some p) =>
        (acc.1, createStain p.x p.y p.z (rnd acc.2.2) acc.2.1, acc.2.2 + 1)
      | (none, none) => (acc.1, acc.2.1, acc.2.2))
    ([], s, 0)
  { r.2.1 with droplets := r.1 }

/-- `updateStains`: age, fade and drop fully faded marks. -/
def updateStains (dt : ℚ) (s : Liquid) : Liquid :=
  { s with stains :=
      (s.stains.map (fun t =>
        { t with lifetime := t.lifetime - dt,
                 opacity := max 0 ((t.lifetime - dt) / t.maxLifetime) * 0.6 })
      ).filter (fun t => ¬ t.lifetime ≤ 0) }

/-- One `spillAll` droplet: random surface point, outward explosion
velocity from the impact point with random spread and upward splash.
Appends without any capacity check. -/
def spillAllStep (E : MathExt) (impactPoint : Vec3) (rnd : ℕ → ℚ)
    (l2w : Vec3 → Vec3) (meshAttached : Bool) (acc : Liquid) (i : ℕ) :
    Liquid :=
  let angle := rnd (6 * i) * E.piE * 2
  let radius := rnd (6 * i + 1) * acc.cupRadius * 0.8
  let localX := E.cosE angle * radius
  let localZ := E.sinE angle * radius
  let spillPos := if meshAttached then l2w ⟨localX, 0, localZ⟩
    else Vec3.add impactPoint ⟨localX * 0.04, 0, localZ * 0.04⟩
  let outwardDir := normalize3 E (Vec3.sub spillPos impactPoint)
  let speed := 0.5 + rnd (6 * i + 2) * 1.5
  let vel : Vec3 :=
    ⟨outwardDir.x * speed + (rnd (6 * i + 3) - 0.5) * 0.5,
     rnd (6 * i + 4) * 1.0,
     outwardDir.z * speed + (rnd (6 * i + 5) - 0.5) * 0.5⟩
  { acc with droplets := acc.droplets ++
      [{ position := spillPos, velocity := vel, lifetime := 3.0,
         wasFalling := false, stained := false }] }

/-- `spillAll(impactPoint)`: no-op when the level is already 0 (or
below); otherwise eject `⌊level / maxLevel * 30⌋` droplets and set the
level to exactly 0. -/
def spillAll (E : MathExt) (impactPoint : Vec3) (rnd : ℕ → ℚ)
    (l2w : Vec3 → Vec3) (meshAttached : Bool) (s : Liquid) : Liquid :=
  if s.liquidLevel ≤ 0 then s
  else
    let dropletCount := (Int.floor (s.liquidLevel / s.maxLiquidLevel * 30)).toNat
    let s2 := (List.range dropletCount).foldl
      (spillAllStep E impactPoint rnd l2w meshAttached) s
    { s2 with liquidLevel := 0 }

/-- Per-frame inputs of `LiquidSimulation.update`: the cup's world
position and rotation, the frame delta, the random stream and the
liquid-mesh local-to-world transform. -/
structure LiqIn where
  cupPos : Vec3
  tiltX : ℚ
  tiltZ : ℚ
  deltaTime : ℚ
  rnd : ℕ → ℚ
  l2w : Vec3 → Vec3

/-- `LiquidSimulation.update`: first-frame initialisation; teleport check
(squared comparison of the 1.0-unit jump, exact); velocity/acceleration
tracking with the 50-unit acceleration clamp; then forcing, waves, spill
check, droplet lifecycle and stain fading.  `updateLiquidMesh`,
`updateDistortionTexture` and the shader-time bump only write external
render state. -/
def update (E : MathExt) (inp : LiqIn) (s : Liquid) : Liquid :=
  if s.initialized = false then
    { s with prevCupPos := inp.cupPos, prevTiltX := inp.tiltX,
             prevTiltZ := inp.tiltZ, initialized := true }
  else
    let s1 :=
      if Vec3.distSq inp.cupPos s.prevCupPos > 1 then
        { (resetHeightfield s) with
          prevTiltX := inp.tiltX, prevTiltZ := inp.tiltZ,
          tiltVelX := 0, tiltVelZ := 0 }
      else s
    let dt := if inp.deltaTime = 0 then 0.016 else inp.deltaTime
    let newVelocity := Vec3.smul (1 / dt) (Vec3.sub inp.cupPos s1.prevCupPos)
    let cupAccel :=
      clampLength E (Vec3.smul (1 / dt) (Vec3.sub newVelocity s1.prevVelocity))
        0 50
    let s2 := { s1 with
      cupAcceleration := cupAccel, cupVelocity := newVelocity,
      prevVelocity := newVelocity, prevCupPos := inp.cupPos }
    let s3 := applyPhysicsForces E inp.tiltX inp.tiltZ dt s2
    let s4 := updateWavePhysics dt s3
    let s5 := checkSpills E inp.cupPos inp.tiltX inp.rnd inp.l2w s4
    let s6 := updateDroplets E inp.deltaTime (fun k => inp.rnd (1000 + k)) s5
    updateStains inp.deltaTime s6

/-- `getTotalSpilled()`. -/
def getTotalSpilled (s : Liquid) : ℚ := s.totalSpilled

/-- `getLiquidPercentage()`. -/
def getLiquidPercentage (s : Liquid) : ℚ := s.liquidLevel / s.maxLiquidLevel

/-! ### Frame lemmas: which fields each operation can change -/

lemma spawnDroplet_eq (E : MathExt) (cup : Vec3) (lx lz r1 r2 r3 : ℚ)
    (l2w : Vec3 → Vec3) (s : Liquid) :
    spawnDroplet E cup lx lz r1 r2 r3 l2w s =
      { s with droplets := (spawnDroplet E cup lx lz r1 r2 r3 l2w s).droplets } := by
  unfold spawnDroplet
  split
  · rfl
  · rfl

lemma createStain_eq (x y z r : ℚ) (s : Liquid) :
    createStain x y z r s =
      { s with stains := (createStain x y z r s).stains } := rfl

lemma updateStains_eq (dt : ℚ) (s : Liquid) :
    updateStains dt s = { s with stains := (updateStains dt s).stains } := rfl

lemma applyPhysicsForces_eq (E : MathExt) (tx tz dt : ℚ) (s : Liquid) :
    applyPhysicsForces E tx tz dt s =
      { s with
        velocities := (applyPhysicsForces E tx tz dt s).velocities,
        prevTiltX := tx, prevTiltZ := tz,
        tiltVelX := (applyPhysicsForces E tx tz dt s).tiltVelX,
        tiltVelZ := (applyPhysicsForces E tx tz dt s).tiltVelZ } := rfl

lemma updateWavePhysics_eq (dt : ℚ) (s : Liquid) :
    updateWavePhysics dt s =
      { s with
        velocities := (updateWavePhysics dt s).velocities,
        heights := (updateWavePhysics dt s).heights } := rfl

lemma spillRimStep_eq (E : MathExt) (cup : Vec3) (tilt : ℚ) (rnd : ℕ → ℚ)
    (l2w : Vec3 → Vec3) (dThr : ℚ) (acc : Liquid × ℕ) (i : ℕ) :
    (spillRimStep E cup tilt rnd l2w dThr acc i).1 =
      { acc.1 with
        droplets := (spillRimStep E cup tilt rnd l2w dThr acc i).1.droplets,
        totalSpilled := (spillRimStep E cup tilt rnd l2w dThr acc i).1.totalSpilled,
        liquidLevel := (spillRimStep E cup tilt rnd l2w dThr acc i).1.liquidLevel } := by
  unfold spillRimStep
  split
  · rw [spawnDroplet_eq]
  · rfl

lemma spillFold_eq (E : MathExt) (cup : Vec3) (tilt : ℚ) (rnd : ℕ → ℚ)
    (l2w : Vec3 → Vec3) (dThr : ℚ) :
    ∀ (l : List ℕ) (acc : Liquid × ℕ),
      (l.foldl (spillRimStep E cup tilt rnd l2w dThr) acc).1 =
        { acc.1 with
          droplets := (l.foldl (spillRimStep E cup tilt rnd l2w dThr) acc).1.droplets,
          totalSpilled :=
            (l.foldl (spillRimStep E cup tilt rnd l2w dThr) acc).1.totalSpilled,
          liquidLevel :=
            (l.foldl (spillRimStep E cup tilt rnd l2w dThr) acc).1.liquidLevel } := by
  intro l
  induction l with
  | nil => intro acc; rfl
  | cons i t ih =>
    intro acc
    rw [List.foldl_cons, ih, spillRimStep_eq]

lemma checkSpills_eq (E : MathExt) (cup : Vec3) (tilt : ℚ) (rnd : ℕ → ℚ)
    (l2w : Vec3 → Vec3) (s : Liquid) :
    checkSpills E cup tilt rnd l2w s =
      { s with
        droplets := (checkSpills E cup tilt rnd l2w s).droplets,
        totalSpilled := (checkSpills E cup tilt rnd l2w s).totalSpilled,
        liquidLevel := (checkSpills E cup tilt rnd l2w s).liquidLevel } := by
  unfold checkSpills
  exact spillFold_eq E cup tilt rnd l2w _ _ _

lemma updateDroplets_eq (E : MathExt) (dt : ℚ) (rnd : ℕ → ℚ) (s : Liquid) :
    updateDroplets E dt rnd s =
      { s with
        droplets := (updateDroplets E dt rnd s).droplets,
        stains := (updateDroplets E dt rnd s).stains } := by
  unfold updateDroplets
  dsimp only
  have key : ∀ (l : List Droplet),
      (l.foldr
        (fun d (acc : List Droplet × Liquid × ℕ) =>
          match dropletStep E dt d with
          | (some d2, _) => (d2 :: acc.1, acc.2.1, acc.2.2)
          | (none, some p) =>
            (acc.1, createStain p.x p.y p.z (rnd acc.2.2) acc.2.1, acc.2.2 + 1)
          | (none, none) => (acc.1, acc.2.1, acc.2.2))
        ([], s, 0)).2.1 =
      { s with stains :=
          (l.foldr
            (fun d (acc : List Droplet × Liquid × ℕ) =>
              match dropletStep E dt d with
              | (some d2, _) => (d2 :: acc.1, acc.2.1, acc.2.2)
              | (none, some p) =>
                (acc.1, createStain p.x p.y p.z (rnd acc.2.2) acc.2.1, acc.2.2 + 1)
              | (none, none) => (acc.1, acc.2.1, acc.2.2))
            ([], s, 0)).2.1.stains } := by
    intro l
    induction l with
    | nil => rfl
    | cons d t ih =>
      rw [List.foldr_cons]
      cases hstep : dropletStep E dt d with
      | mk o1 o2 =>
        cases o1 with
        | some d2 => simpa [hstep] using ih
        | none =>
          cases o2 with
          | some p =>
            simp only [hstep]
            rw [ih, createStain_eq]
          | none => simpa [hstep] using ih
  rw [key]

/-! ### The spill arithmetic -/

lemma spillCond_congr (E : MathExt) (tilt dThr : ℚ) (s s' : Liquid)
    (hh : s'.heights = s.heights) (hg : s'.gridSize = s.gridSize)
    (hc : s'.cupRadius = s.cupRadius) (i : ℕ) :
    spillCond E tilt dThr s' i = spillCond E tilt dThr s i := by
  unfold spillCond getHeight
  rw [hh, hg, hc]

/-- The liquid level after `k` rim spill events
(`liquidLevel = max(0, liquidLevel - 0.002)` per event). -/
def levelAfter (l : ℚ) (k : ℕ) : ℚ := (fun x => max 0 (x - 0.002))^[k] l

lemma max_zero_sub_collapse (a b : ℚ) (hb : 0 ≤ b) :
    max 0 (max 0 a - b) = max 0 (a - b) := by
  rcases le_total a 0 with h | h
  · rw [max_eq_left h, max_eq_left (by linarith), max_eq_left (by linarith)]
  · rw [max_eq_right h]

lemma levelAfter_eq :
    ∀ (k : ℕ) (l : ℚ), 0 ≤ l → levelAfter l k = max 0 (l - k * 0.002) := by
  intro k
  induction k with
  | zero =>
    intro l hl
    simp [levelAfter, max_eq_right hl]
  | succ n ih =>
    intro l hl
    rw [levelAfter, Function.iterate_succ_apply]
    have h1 := ih (max 0 (l - 0.002)) (le_max_left _ _)
    rw [levelAfter] at h1
    rw [h1, max_zero_sub_collapse _ _ (by positivity)]
    congr 1
    push_cast
    ring

lemma levelAfter_le (k : ℕ) (l : ℚ) (hl : 0 ≤ l) : levelAfter l k ≤ l := by
  rw [levelAfter_eq k l hl]
  have hk : (0 : ℚ) ≤ (k : ℚ) * 0.002 := by positivity
  exact max_le hl (by linarith)

lemma spillRimStep_pos (E : MathExt) (cup : Vec3) (tilt : ℚ) (rnd : ℕ → ℚ)
    (l2w : Vec3 → Vec3) (dThr : ℚ) (acc : Liquid × ℕ) (i : ℕ)
    (hc : spillCond E tilt dThr acc.1 i = true) :
    (spillRimStep E cup tilt rnd l2w dThr acc i).1.totalSpilled =
      acc.1.totalSpilled + 0.001 ∧
    (spillRimStep E cup tilt rnd l2w dThr acc i).1.liquidLevel =
      max 0 (acc.1.liquidLevel - 0.002) := by
  unfold spillRimStep
  rw [if_pos hc]
  dsimp only
  constructor
  · rw [spawnDroplet_eq]
  · rw [spawnDroplet_eq]

lemma spillRimStep_neg (E : MathExt) (cup : Vec3) (tilt : ℚ) (rnd : ℕ → ℚ)
    (l2w : Vec3 → Vec3) (dThr : ℚ) (acc : Liquid × ℕ) (i : ℕ)
    (hc : ¬ spillCond E tilt dThr acc.1 i = true) :
    spillRimStep E cup tilt rnd l2w dThr acc i = acc := by
  unfold spillRimStep
  rw [if_neg hc]

lemma spillFold_value (E : MathExt) (cup : Vec3) (tilt : ℚ) (rnd : ℕ → ℚ)
    (l2w : Vec3 → Vec3) (dThr : ℚ) :
    ∀ (l : List ℕ) (acc : Liquid × ℕ),
      (l.foldl (spillRimStep E cup tilt rnd l2w dThr) acc).1.totalSpilled =
        acc.1.totalSpilled +
          ((l.filter (spillCond E tilt dThr acc.1)).length : ℚ) * 0.001 ∧
      (l.foldl (spillRimStep E cup tilt rnd l2w dThr) acc).1.liquidLevel =
        levelAfter acc.1.liquidLevel
          (l.filter (spillCond E tilt dThr acc.1)).length := by
  intro l
  induction l with
  | nil =>
    intro acc
    simp [levelAfter]
  | cons i t ih =>
    intro acc
    rw [List.foldl_cons, List.filter_cons]
    by_cases hc : spillCond E tilt dThr acc.1 i = true
    · have hstep := spillRimStep_eq E cup tilt rnd l2w dThr acc i
      have hpos := spillRimStep_pos E cup tilt rnd l2w dThr acc i hc
      have hcong : ∀ j ∈ t,
          spillCond E tilt dThr (spillRimStep E cup tilt rnd l2w dThr acc i).1 j =
            spillCond E tilt dThr acc.1 j := by
        intro j _
        apply spillCond_congr
        · rw [hstep]
        · rw [hstep]
        · rw [hstep]
      have ih' := ih (spillRimStep E cup tilt rnd l2w dThr acc i)
      rw [List.filter_congr hcong] at ih'
      rw [hc]
      simp only [if_true]
      refine ⟨?_, ?_⟩
      · rw [ih'.1, hpos.1]
        push_cast [List.length_cons]
        ring
      · rw [ih'.2, hpos.2, List.length_cons]
        rw [levelAfter, levelAfter, Function.iterate_succ_apply]
    · rw [spillRimStep_neg E cup tilt rnd l2w dThr acc i hc]
      have hcb : spillCond E tilt dThr acc.1 i = false :=
        Bool.not_eq_true _ |>.mp hc
      rw [hcb]
      simp only [Bool.false_eq_true, if_false]
      exact ih acc

/-- Number of rim samples that spill in one `checkSpills` call. -/
def spillEventCount (E : MathExt) (tilt : ℚ) (s : Liquid) : ℕ :=
  ((List.range 16).filter
    (spillCond E tilt
      (s.spillThreshold + (1 - s.liquidLevel / s.maxLiquidLevel) * 0.4) s)).length

lemma checkSpills_level_spilled (E : MathExt) (cup : Vec3) (tilt : ℚ)
    (rnd : ℕ → ℚ) (l2w : Vec3 → Vec3) (s : Liquid) :
    (checkSpills E cup tilt rnd l2w s).totalSpilled =
      s.totalSpilled + (spillEventCount E tilt s : ℚ) * 0.001 ∧
    (checkSpills E cup tilt rnd l2w s).liquidLevel =
      levelAfter s.liquidLevel (spillEventCount E tilt s) := by
  unfold checkSpills spillEventCount
  dsimp only
  exact spillFold_value E cup tilt rnd l2w _ (List.range 16) (s, 0)

lemma spillAllFold_spec (E : MathExt) (impact : Vec3) (rnd : ℕ → ℚ)
    (l2w : Vec3 → Vec3) (mesh : Bool) :
    ∀ (l : List ℕ) (acc : Liquid),
      (l.foldl (spillAllStep E impact rnd l2w mesh) acc) =
        { acc with
          droplets := (l.foldl (spillAllStep E impact rnd l2w mesh) acc).droplets } ∧
      (l.foldl (spillAllStep E impact rnd l2w mesh) acc).droplets.length =
        acc.droplets.length + l.length := by
  intro l
  induction l with
  | nil => intro acc; exact ⟨rfl, rfl⟩
  | cons i t ih =>
    intro acc
    rw [List.foldl_cons]
    have hstep : spillAllStep E impact rnd l2w mesh acc i =
        { acc with droplets :=
            (spillAllStep E impact rnd l2w mesh acc i).droplets } := rfl
    have hlen : (spillAllStep E impact rnd l2w mesh acc i).droplets.length =
        acc.droplets.length + 1 := by
      simp [spillAllStep]
    obtain ⟨he, hl⟩ := ih (spillAllStep E impact rnd l2w mesh acc i)
    refine ⟨?_, ?_⟩
    · rw [he]
      conv_lhs => rw [hstep]
      rfl
    · rw [hl, hlen, List.length_cons]
      omega

lemma spillAll_spec (E : MathExt) (impact : Vec3) (rnd : ℕ → ℚ)
    (l2w : Vec3 → Vec3) (mesh : Bool) (s : Liquid) :
    (spillAll E impact rnd l2w mesh s).totalSpilled = s.totalSpilled ∧
    (0 < s.liquidLevel → (spillAll E impact rnd l2w mesh s).liquidLevel = 0) ∧
    (s.liquidLevel ≤ 0 → spillAll E impact rnd l2w mesh s = s) ∧
    (0 < s.liquidLevel → (spillAll E impact rnd l2w mesh s).droplets.length =
      s.droplets.length +
        (Int.floor (s.liquidLevel / s.maxLiquidLevel * 30)).toNat) := by
  unfold spillAll
  by_cases h : s.liquidLevel ≤ 0
  · rw [if_pos h]
    exact ⟨rfl, fun hl => absurd h (not_le.mpr hl), fun _ => rfl,
      fun hl => absurd h (not_le.mpr hl)⟩
  · rw [if_neg h]
    dsimp only
    obtain ⟨he, hl⟩ := spillAllFold_spec E impact rnd l2w mesh
      (List.range ((Int.floor (s.liquidLevel / s.maxLiquidLevel * 30)).toNat)) s
    refine ⟨?_, fun _ => rfl, fun hle => absurd hle h, fun _ => ?_⟩
    · conv_lhs => rw [he]
    · rw [hl, List.length_range]

/-! ### Claim C9: boundary-safe heightfield access -/

/-- **C9.** Reading the heightfield (height or velocity) at any integer
grid position outside `[0, gridSize) × [0, gridSize)` returns the neutral
value 0, and writing at such a position changes nothing, so every
heightfield access is total and boundary-safe. -/
theorem C9_heightfield_boundary_safe (s : Liquid) (x y : ℤ) (h v : ℚ)
    (hout : x < 0 ∨ x ≥ (s.gridSize : ℤ) ∨ y < 0 ∨ y ≥ (s.gridSize : ℤ)) :
    getHeight s x y = 0 ∧ getVelocity s x y = 0 ∧
    setHeight s x y h = s ∧ setVelocity s x y v = s := by
  unfold getHeight getVelocity setHeight setVelocity
  rw [if_pos hout, if_pos hout, if_pos hout, if_pos hout]
  exact ⟨rfl, rfl, rfl, rfl⟩

/-! ### Claims C4 and C10: level and telemetry arithmetic -/

lemma updateStains_liquidLevel (t : ℚ) (x : Liquid) :
    (updateStains t x).liquidLevel = x.liquidLevel := by rw [updateStains_eq]

lemma updateDroplets_liquidLevel (E : MathExt) (t : ℚ) (r : ℕ → ℚ) (x : Liquid) :
    (updateDroplets E t r x).liquidLevel = x.liquidLevel := by
  rw [updateDroplets_eq]

lemma updateStains_totalSpilled (t : ℚ) (x : Liquid) :
    (updateStains t x).totalSpilled = x.totalSpilled := by rw [updateStains_eq]

lemma updateDroplets_totalSpilled (E : MathExt) (t : ℚ) (r : ℕ → ℚ) (x : Liquid) :
    (updateDroplets E t r x).totalSpilled = x.totalSpilled := by
  rw [updateDroplets_eq]

lemma updateWavePhysics_liquidLevel (t : ℚ) (x : Liquid) :
    (updateWavePhysics t x).liquidLevel = x.liquidLevel := rfl

lemma applyPhysicsForces_liquidLevel (E : MathExt) (tx tz t : ℚ) (x : Liquid) :
    (applyPhysicsForces E tx tz t x).liquidLevel = x.liquidLevel := rfl

lemma update_level_le (E : MathExt) (inp : LiqIn) (s : Liquid)
    (hl : 0 ≤ s.liquidLevel) : (update E inp s).liquidLevel ≤ s.liquidLevel := by
  unfold update
  split
  · exact le_refl _
  · dsimp only
    rw [updateStains_liquidLevel, updateDroplets_liquidLevel,
      (checkSpills_level_spilled E _ _ _ _ _).2, updateWavePhysics_liquidLevel,
      applyPhysicsForces_liquidLevel]
    dsimp only
    split
    · exact levelAfter_le _ _ hl
    · exact levelAfter_le _ _ hl

/-- **C4.** The liquid level is non-increasing between explicit resets:
each of the `spillEventCount` rim spill events of one `checkSpills` call
decrements the level by exactly 0.002, floored at 0; a whole per-frame
`update` never increases the level; `spillAll` sets the level to exactly
0 whenever liquid remains; and `spillAll` on an already-empty vessel is
an idempotent no-op returning the state unchanged (no droplets spawned,
nothing changed). -/
theorem C4_level_monotone_spillAll_empties (E : MathExt) (inp : LiqIn)
    (cup impact : Vec3) (tilt : ℚ) (rnd rnd2 : ℕ → ℚ) (l2w l2w2 : Vec3 → Vec3)
    (mesh : Bool) (s : Liquid) (hl : 0 ≤ s.liquidLevel) :
    (checkSpills E cup tilt rnd l2w s).liquidLevel =
      max 0 (s.liquidLevel - (spillEventCount E tilt s : ℚ) * 0.002) ∧
    (update E inp s).liquidLevel ≤ s.liquidLevel ∧
    (0 < s.liquidLevel → (spillAll E impact rnd2 l2w2 mesh s).liquidLevel = 0) ∧
    (s.liquidLevel = 0 → spillAll E impact rnd2 l2w2 mesh s = s) := by
  refine ⟨?_, update_level_le E inp s hl,
    (spillAll_spec E impact rnd2 l2w2 mesh s).2.1,
    fun h0 => (spillAll_spec E impact rnd2 l2w2 mesh s).2.2.1 (le_of_eq h0)⟩
  rw [(checkSpills_level_spilled E cup tilt rnd l2w s).2, levelAfter_eq _ _ hl]

/-- Fixed per-frame input for concrete evaluations: resting cup. -/
def liqIn0 : LiqIn :=
  { cupPos := Vec3.zero, tiltX := 0, tiltZ := 0, deltaTime := 0.016,
    rnd := fun _ => 1/2, l2w := fun v => v }

/-- Witness for C4: the fresh simulation state (level 0.9). -/
theorem C4_level_monotone_spillAll_empties_witness :
    (0 : ℚ) ≤ (initLiquid true).liquidLevel ∧
    ((0 : ℚ) < (initLiquid true).liquidLevel →
      (spillAll mathExt0 Vec3.zero (fun _ => 1/2) (fun v => v) true
        (initLiquid true)).liquidLevel = 0) :=
  ⟨by norm_num [initLiquid],
    (C4_level_monotone_spillAll_empties mathExt0 liqIn0 Vec3.zero Vec3.zero 0
      (fun _ => 1/2) (fun _ => 1/2) (fun v => v) (fun v => v) true
      (initLiquid true) (by norm_num [initLiquid])).2.2.1⟩

/-- **C10.** `spillAll` never touches the total-spilled counter (so
vessel destruction is invisible to the `getTotalSpilled` telemetry);
`checkSpills` adds exactly 0.001 per rim spill event; and a whole
per-frame `update` changes the counter by exactly `k * 0.001` for the
number `k` of rim spill events of its spill check. -/
theorem C10_spillAll_invisible_to_telemetry (E : MathExt) (inp : LiqIn)
    (cup impact : Vec3) (tilt : ℚ) (rnd rnd2 : ℕ → ℚ) (l2w l2w2 : Vec3 → Vec3)
    (mesh : Bool) (s : Liquid) :
    getTotalSpilled (spillAll E impact rnd2 l2w2 mesh s) = getTotalSpilled s ∧
    (checkSpills E cup tilt rnd l2w s).totalSpilled =
      s.totalSpilled + (spillEventCount E tilt s : ℚ) * 0.001 ∧
    (∃ k : ℕ, (update E inp s).totalSpilled =
      s.totalSpilled + (k : ℚ) * 0.001) := by
  refine ⟨(spillAll_spec E impact rnd2 l2w2 mesh s).1,
    (checkSpills_level_spilled E cup tilt rnd l2w s).1, ?_⟩
  unfold update
  split
  · exact ⟨0, by norm_num⟩
  · dsimp only
    rw [updateStains_totalSpilled, updateDroplets_totalSpilled,
      (checkSpills_level_spilled E inp.cupPos inp.tiltX inp.rnd inp.l2w _).1]
    split
    all_goals split
    all_goals exact ⟨_, rfl⟩

/-! ### Claim C3: capacity bounds -/

lemma spawnDroplet_cap (E : MathExt) (cup : Vec3) (lx lz r1 r2 r3 : ℚ)
    (l2w : Vec3 → Vec3) (s : Liquid) (hd : 0 < s.maxDroplets)
    (hlen : s.droplets.length ≤ s.maxDroplets) :
    (spawnDroplet E cup lx lz r1 r2 r3 l2w s).droplets.length ≤
      s.maxDroplets := by
  unfold spawnDroplet
  split
  · exact hlen
  · dsimp only
    split
    · rename_i hge
      simp only [List.length_append, List.length_tail, List.length_cons,
        List.length_nil]
      omega
    · rename_i hlt
      simp only [List.length_append, List.length_cons, List.length_nil]
      omega

lemma createStain_cap (x y z r : ℚ) (s : Liquid) (hs : 0 < s.maxStains)
    (hlen : s.stains.length ≤ s.maxStains) :
    (createStain x y z r s).stains.length ≤ s.maxStains := by
  unfold createStain
  dsimp only
  split
  · rename_i hge
    simp only [List.length_append, List.length_tail, List.length_cons,
      List.length_nil]
    omega
  · rename_i hlt
    simp only [List.length_append, List.length_cons, List.length_nil]
    omega

lemma spillFold_cap (E : MathExt) (cup : Vec3) (tilt : ℚ) (rnd : ℕ → ℚ)
    (l2w : Vec3 → Vec3) (dThr : ℚ) :
    ∀ (l : List ℕ) (acc : Liquid × ℕ), 0 < acc.1.maxDroplets →
      acc.1.droplets.length ≤ acc.1.maxDroplets →
      (l.foldl (spillRimStep E cup tilt rnd l2w dThr) acc).1.droplets.length ≤
        acc.1.maxDroplets := by
  intro l
  induction l with
  | nil => intro acc _ hlen; exact hlen
  | cons i t ih =>
    intro acc hd hlen
    rw [List.foldl_cons]
    have hstep := spillRimStep_eq E cup tilt rnd l2w dThr acc i
    have hmax : (spillRimStep E cup tilt rnd l2w dThr acc i).1.maxDroplets =
        acc.1.maxDroplets := by rw [hstep]
    have hcap : (spillRimStep E cup tilt rnd l2w dThr acc i).1.droplets.length ≤
        acc.1.maxDroplets := by
      unfold spillRimStep
      split
      · dsimp only
        have h2 : ((spawnDroplet E cup (rimXZ E acc.1 i).1 (rimXZ E acc.1 i).2
            (rnd acc.2) (rnd (acc.2 + 1)) (rnd (acc.2 + 2)) l2w
            acc.1).droplets).length ≤ acc.1.maxDroplets :=
          spawnDroplet_cap E cup _ _ _ _ _ l2w acc.1 hd hlen
        exact h2
      · exact hlen
    have := ih (spillRimStep E cup tilt rnd l2w dThr acc i)
      (by rw [hmax]; exact hd) (by rw [hmax]; exact hcap)
    rw [hmax] at this
    exact this

lemma checkSpills_droplets_cap (E : MathExt) (cup : Vec3) (tilt : ℚ)
    (rnd : ℕ → ℚ) (l2w : Vec3 → Vec3) (s : Liquid) (hd : 0 < s.maxDroplets)
    (hlen : s.droplets.length ≤ s.maxDroplets) :
    (checkSpills E cup tilt rnd l2w s).droplets.length ≤ s.maxDroplets := by
  unfold checkSpills
  dsimp only
  exact spillFold_cap E cup tilt rnd l2w _ (List.range 16) (s, 0) hd hlen

lemma updateDroplets_droplets_le (E : MathExt) (dt : ℚ) (rnd : ℕ → ℚ)
    (s : Liquid) :
    (updateDroplets E dt rnd s).droplets.length ≤ s.droplets.length := by
  unfold updateDroplets
  dsimp only
  induction s.droplets with
  | nil => exact Nat.le_refl 0
  | cons d t ih =>
    rw [List.foldr_cons]
    cases hstep : dropletStep E dt d with
    | mk o1 o2 =>
      cases o1 with
      | some d2 =>
        simpa using Nat.succ_le_succ ih
      | none =>
        cases o2 with
        | some p => simpa using Nat.le_succ_of_le ih
        | none => simpa using Nat.le_succ_of_le ih

lemma updateDroplets_stains_cap (E : MathExt) (dt : ℚ) (rnd : ℕ → ℚ)
    (s : Liquid) (hs : 0 < s.maxStains)
    (hlen : s.stains.length ≤ s.maxStains) :
    (updateDroplets E dt rnd s).stains.length ≤ s.maxStains := by
  unfold updateDroplets
  dsimp only
  suffices h : ∀ (l : List Droplet),
      ((l.foldr
        (fun d (acc : List Droplet × Liquid × ℕ) =>
          match dropletStep E dt d with
          | (some d2, _) => (d2 :: acc.1, acc.2.1, acc.2.2)
          | (none, some p) =>
            (acc.1, createStain p.x p.y p.z (rnd acc.2.2) acc.2.1, acc.2.2 + 1)
          | (none, none) => (acc.1, acc.2.1, acc.2.2))
        ([], s, 0)).2.1.stains.length ≤ s.maxStains ∧
      (l.foldr
        (fun d (acc : List Droplet × Liquid × ℕ) =>
          match dropletStep E dt d with
          | (some d2, _) => (d2 :: acc.1, acc.2.1, acc.2.2)
          | (none, some p) =>
            (acc.1, createStain p.x p.y p.z (rnd acc.2.2) acc.2.1, acc.2.2 + 1)
          | (none, none) => (acc.1, acc.2.1, acc.2.2))
        ([], s, 0)).2.1.maxStains = s.maxStains) by
    exact (h s.droplets).1
  intro l
  induction l with
  | nil => exact ⟨hlen, rfl⟩
  | cons d t ih =>
    rw [List.foldr_cons]
    cases hstep : dropletStep E dt d with
    | mk o1 o2 =>
      cases o1 with
      | some d2 => simpa [hstep] using ih
      | none =>
        cases o2 with
        | some p =>
          simp only [hstep]
          refine ⟨?_, ?_⟩
          · refine le_trans (createStain_cap _ _ _ _ _ ?_ ?_) (le_of_eq ih.2)
            · rw [ih.2]; exact hs
            · rw [ih.2]; exact ih.1
          · rw [createStain_eq]
            dsimp only
            exact ih.2
        | none => simpa [hstep] using ih

lemma updateStains_stains_le (dt : ℚ) (s : Liquid) :
    (updateStains dt s).stains.length ≤ s.stains.length := by
  unfold updateStains
  dsimp only
  exact le_trans (List.length_filter_le _ _) (by rw [List.length_map])

lemma caps_after_core (E : MathExt) (cp : Vec3) (tx dtD dtS : ℚ)
    (rnd rndD : ℕ → ℚ) (l2w : Vec3 → Vec3) (t : Liquid) (nD nS : ℕ)
    (dl : List Droplet) (sl : List Stain)
    (hmd : t.maxDroplets = nD) (hms : t.maxStains = nS)
    (hdr : t.droplets = dl) (hst : t.stains = sl)
    (hd : 0 < nD) (hdl : dl.length ≤ nD)
    (hs : 0 < nS) (hsl : sl.length ≤ nS) :
    (updateStains dtS (updateDroplets E dtD rndD
        (checkSpills E cp tx rnd l2w t))).droplets.length ≤ nD ∧
    (updateStains dtS (updateDroplets E dtD rndD
        (checkSpills E cp tx rnd l2w t))).stains.length ≤ nS := by
  subst hmd hms hdr hst
  constructor
  · have h7 : (updateStains dtS (updateDroplets E dtD rndD
          (checkSpills E cp tx rnd l2w t))).droplets
        = (updateDroplets E dtD rndD
            (checkSpills E cp tx rnd l2w t)).droplets := rfl
    refine le_trans (le_of_eq (congrArg List.length h7)) ?_
    exact le_trans (updateDroplets_droplets_le E dtD rndD _)
      (checkSpills_droplets_cap E cp tx rnd l2w t hd hdl)
  · refine le_trans (updateStains_stains_le dtS _) ?_
    rw [checkSpills_eq E cp tx rnd l2w t]
    exact updateDroplets_stains_cap E dtD rndD _ hs hsl

set_option maxRecDepth 8000 in
set_option maxHeartbeats 1600000 in
/-- **C3 (amended).** `spawnDroplet` and `createStain` maintain the
droplet/residue capacity caps, evicting exactly the oldest entry when
full, and one whole per-frame `update` preserves both caps; but the
droplets ejected by `spillAll` are appended without any eviction, so
`spillAll` can exceed the droplet cap (see the counterexample). -/
theorem C3_capacity_bounds_amended (E : MathExt) (inp : LiqIn) (cup : Vec3)
    (lx lz r1 r2 r3 x y z rr : ℚ) (l2w : Vec3 → Vec3) (s : Liquid)
    (hd : 0 < s.maxDroplets) (hs : 0 < s.maxStains) :
    (s.droplets.length ≤ s.maxDroplets →
      (spawnDroplet E cup lx lz r1 r2 r3 l2w s).droplets.length ≤
        s.maxDroplets) ∧
    (s.physicsWorldPresent = true → s.droplets.length = s.maxDroplets →
      ∃ d, (spawnDroplet E cup lx lz r1 r2 r3 l2w s).droplets =
        s.droplets.tail ++ [d]) ∧
    (s.stains.length ≤ s.maxStains →
      (createStain x y z rr s).stains.length ≤ s.maxStains) ∧
    (s.stains.length = s.maxStains →
      ∃ t, (createStain x y z rr s).stains = s.stains.tail ++ [t]) ∧
    (s.droplets.length ≤ s.maxDroplets → s.stains.length ≤ s.maxStains →
      (update E inp s).droplets.length ≤ s.maxDroplets ∧
      (update E inp s).stains.length ≤ s.maxStains) := by
  refine ⟨fun hlen => spawnDroplet_cap E cup lx lz r1 r2 r3 l2w s hd hlen,
    ?_, fun hlen => createStain_cap x y z rr s hs hlen, ?_, ?_⟩
  · intro hpw hfull
    unfold spawnDroplet
    rw [if_neg (by simp [hpw])]
    dsimp only
    rw [if_pos (le_of_eq hfull.symm)]
    exact ⟨_, rfl⟩
  · intro hfull
    unfold createStain
    dsimp only
    rw [if_pos (le_of_eq hfull.symm)]
    exact ⟨_, rfl⟩
  · intro hdl hsl
    unfold update
    split
    · exact ⟨hdl, hsl⟩
    · dsimp only
      split
      all_goals split
      all_goals
        refine caps_after_core E inp.cupPos inp.tiltX inp.deltaTime
          inp.deltaTime inp.rnd (fun k => inp.rnd (1000 + k)) inp.l2w _
          s.maxDroplets s.maxStains s.droplets s.stains ?_ ?_ ?_ ?_
          hd hdl hs hsl
      all_goals rfl

/-- A placeholder droplet used to fill the droplet list to capacity. -/
def dropletDummy : Droplet :=
  { position := Vec3.zero, velocity := Vec3.zero, lifetime := 1,
    wasFalling := false, stained := false }

/-- A simulation at the 100-droplet cap with liquid level 0.7. -/
def sFull : Liquid :=
  { initLiquid true with
      liquidLevel := 0.7,
      droplets := List.replicate 100 dropletDummy,
      initialized := true }

/-- Counterexample to C3 as stated: with the droplet list already at its
cap of 100 and liquid level 0.7, `spillAll` appends
`floor(0.7 / 0.9 * 30) = 23` droplets with no eviction, ending at 123
droplets — the droplet count is not bounded by `maxDroplets`. -/
theorem C3_counterexample :
    sFull.droplets.length = sFull.maxDroplets ∧
    (spillAll mathExt0 Vec3.zero (fun _ => 1/2) (fun v => v) true
        sFull).droplets.length = 123 ∧
    123 > sFull.maxDroplets := by
  have hpos : (0:ℚ) < sFull.liquidLevel := by norm_num [sFull, initLiquid]
  have hlen := (spillAll_spec mathExt0 Vec3.zero (fun _ => 1/2) (fun v => v)
    true sFull).2.2.2 hpos
  refine ⟨by simp [sFull, initLiquid], ?_, by norm_num [sFull, initLiquid]⟩
  rw [hlen]
  have hq : sFull.liquidLevel / sFull.maxLiquidLevel * 30 = 70/3 := by
    norm_num [sFull, initLiquid]
  rw [hq]
  have hf : Int.floor ((70:ℚ)/3) = 23 := by norm_num
  rw [hf]
  simp [sFull, initLiquid]

/-- Witness for C3 (amended) at the freshly initialised simulation with a
physics world, which has positive droplet and stain caps. -/
theorem C3_capacity_bounds_amended_witness :
    (0 < (initLiquid true).maxDroplets ∧ 0 < (initLiquid true).maxStains) ∧
    (((initLiquid true).droplets.length ≤ (initLiquid true).maxDroplets →
      (spawnDroplet mathExt0 Vec3.zero 0 0 (1/2) (1/2) (1/2) (fun v => v)
        (initLiquid true)).droplets.length ≤ (initLiquid true).maxDroplets) ∧
    ((initLiquid true).physicsWorldPresent = true →
      (initLiquid true).droplets.length = (initLiquid true).maxDroplets →
      ∃ d, (spawnDroplet mathExt0 Vec3.zero 0 0 (1/2) (1/2) (1/2) (fun v => v)
        (initLiquid true)).droplets = (initLiquid true).droplets.tail ++ [d]) ∧
    ((initLiquid true).stains.length ≤ (initLiquid true).maxStains →
      (createStain 0 0 0 (1/2) (initLiquid true)).stains.length ≤
        (initLiquid true).maxStains) ∧
    ((initLiquid true).stains.length = (initLiquid true).maxStains →
      ∃ t, (createStain 0 0 0 (1/2) (initLiquid true)).stains =
        (initLiquid true).stains.tail ++ [t]) ∧
    ((initLiquid true).droplets.length ≤ (initLiquid true).maxDroplets →
      (initLiquid true).stains.length ≤ (initLiquid true).maxStains →
      (update mathExt0 liqIn0 (initLiquid true)).droplets.length ≤
        (initLiquid true).maxDroplets ∧
      (update mathExt0 liqIn0 (initLiquid true)).stains.length ≤
        (initLiquid true).maxStains)) :=
  ⟨⟨by norm_num [initLiquid], by norm_num [initLiquid]⟩,
    C3_capacity_bounds_amended mathExt0 liqIn0 Vec3.zero 0 0 (1/2) (1/2)
      (1/2) 0 0 0 (1/2) (fun v => v) (initLiquid true)
      (by norm_num [initLiquid]) (by norm_num [initLiquid])⟩

/-! ### Claim C6: droplet removal conditions -/

lemma updateDroplets_filterMap (E : MathExt) (dt : ℚ) (rnd : ℕ → ℚ)
    (s : Liquid) :
    (updateDroplets E dt rnd s).droplets =
      s.droplets.filterMap (fun d => (dropletStep E dt d).1) := by
  unfold updateDroplets
  dsimp only
  induction s.droplets with
  | nil => rfl
  | cons d t ih =>
    rw [List.foldr_cons, List.filterMap_cons]
    cases hstep : dropletStep E dt d with
    | mk o1 o2 =>
      cases o1 with
      | some d2 =>
        simp only [hstep]
        rw [ih]
      | none =>
        cases o2 with
        | some p =>
          simp only [hstep]
          rw [ih]
        | none =>
          simp only [hstep]
          rw [ih]

/-- **C6 (amended).** A droplet is removed (`dropletStep` yields no
successor) exactly when: the impact test fires — it either `wasFalling`
already or is falling fast now (`velocity.y < -0.5`), and (it
`wasFalling` with vertical velocity recovered to at least `-0.05`, or
its speed is below `0.3` with under `1.8` s of life left), and it is
unstained — or it sits at ground height (within `0.02`) unstained, or
its decremented lifetime has expired.  A residue mark is deposited iff
the droplet is removed while unstained, and the per-frame droplet pass
keeps exactly the surviving droplets, in order. -/
theorem C6_droplet_removal_amended (E : MathExt) (dt : ℚ) (d : Droplet) :
    ((dropletStep E dt d).1 = none ↔
      ((((d.wasFalling = true ∧ d.velocity.y ≥ -0.05) ∨
          (E.sqrtE (Vec3.normSq d.velocity) < 0.3 ∧ d.lifetime - dt < 1.8)) ∧
        d.stained = false ∧
        (d.wasFalling = true ∨ d.velocity.y < -0.5)) ∨
       (d.position.y ≤ groundHeight + 0.02 ∧ d.stained = false) ∨
       d.lifetime - dt ≤ 0)) ∧
    ((∃ p, (dropletStep E dt d).2 = some p) ↔
      ((dropletStep E dt d).1 = none ∧ d.stained = false)) ∧
    (∀ (rnd : ℕ → ℚ) (s : Liquid),
      (updateDroplets E dt rnd s).droplets =
        s.droplets.filterMap (fun d2 => (dropletStep E dt d2).1)) := by
  refine ⟨?_, ?_, fun rnd s => updateDroplets_filterMap E dt rnd s⟩
  · unfold dropletStep
    dsimp only
    split
    next hc =>
      obtain ⟨h1, h2, h3⟩ := hc
      simp only [Bool.or_eq_true, Bool.and_eq_true, decide_eq_true_eq] at h1 h3
      exact iff_of_true rfl (Or.inl ⟨h1, h2, h3⟩)
    next hc1 =>
      split
      next hg => exact iff_of_true rfl (Or.inr (Or.inl hg))
      next hg =>
        split
        next he => exact iff_of_true rfl (Or.inr (Or.inr he))
        next he =>
          simp only [Bool.or_eq_true, Bool.and_eq_true, decide_eq_true_eq]
            at hc1
          refine iff_of_false (fun hx => Option.noConfusion hx) ?_
          rintro (⟨hh1, hh2, hh3⟩ | hg2 | he2)
          · exact hc1 ⟨hh1, hh2, hh3⟩
          · exact hg hg2
          · exact he he2
  · unfold dropletStep
    dsimp only
    split
    next hc => exact iff_of_true ⟨_, rfl⟩ ⟨rfl, hc.2.1⟩
    next hc1 =>
      split
      next hg => exact iff_of_true ⟨_, rfl⟩ ⟨rfl, hg.2⟩
      next hg =>
        split
        next he =>
          cases hst : d.stained with
          | false => exact iff_of_true ⟨_, rfl⟩ ⟨rfl, rfl⟩
          | true =>
            refine iff_of_false ?_ ?_
            · rintro ⟨p, hp⟩
              exact Option.noConfusion hp
            · rintro ⟨_, hst2⟩
              exact Bool.noConfusion hst2
        next he =>
          refine iff_of_false ?_ ?_
          · rintro ⟨p, hp⟩
            exact Option.noConfusion hp
          · rintro ⟨h1, _⟩
            exact Option.noConfusion h1

/-- A slow, never-falling droplet in mid-air. -/
def slowDroplet : Droplet :=
  { position := ⟨0, 1/2, 0⟩, velocity := ⟨1/10, 0, 0⟩, lifetime := 12/10,
    wasFalling := false, stained := false }

/-- Counterexample to C6 as stated: this droplet satisfies clause (b) —
speed `0.1 < 0.3` late in its lifetime (`1.1 < 1.8` s remaining) — and
is unstained, yet the frame keeps it: the slow-speed removal also
requires the droplet to have been falling (`wasFalling`), which never
held here. -/
theorem C6_counterexample :
    mathExt0.sqrtE (Vec3.normSq slowDroplet.velocity) < 0.3 ∧
    slowDroplet.lifetime - 1/10 < 1.8 ∧
    slowDroplet.stained = false ∧
    ∃ d2, dropletStep mathExt0 (1/10) slowDroplet = (some d2, none) := by
  have hv : Vec3.normSq slowDroplet.velocity = (1/10 : ℚ) * (1/10) := by
    norm_num [slowDroplet, Vec3.normSq]
  have hs : mathExt0.sqrtE (Vec3.normSq slowDroplet.velocity) = 1/10 := by
    rw [hv]
    show Rat.sqrt ((1/10 : ℚ) * (1/10)) = 1/10
    rw [Rat.sqrt_eq]
    norm_num
  have hw2 : (slowDroplet.wasFalling ||
      decide (slowDroplet.velocity.y < -0.5)) = false := by
    rw [show slowDroplet.wasFalling = false from rfl]
    rw [decide_eq_false (show ¬(slowDroplet.velocity.y < -0.5) by
      norm_num [slowDroplet])]
    rfl
  have hc1 : ¬(((slowDroplet.wasFalling &&
        decide (slowDroplet.velocity.y ≥ -0.05)) ||
        (decide (mathExt0.sqrtE (Vec3.normSq slowDroplet.velocity) < 0.3) &&
          decide (slowDroplet.lifetime - 1/10 < 1.8))) = true ∧
      slowDroplet.stained = false ∧
      (slowDroplet.wasFalling ||
        decide (slowDroplet.velocity.y < -0.5)) = true) :=
    fun hx => by rw [hw2] at hx; exact Bool.noConfusion hx.2.2
  have hc2 : ¬(slowDroplet.position.y ≤ groundHeight + 0.02 ∧
      slowDroplet.stained = false) :=
    fun hx => absurd hx.1 (by norm_num [slowDroplet, groundHeight])
  have hc3 : ¬(slowDroplet.lifetime - 1/10 ≤ 0) := by
    norm_num [slowDroplet]
  refine ⟨by rw [hs]; norm_num, by norm_num [slowDroplet], rfl, ?_⟩
  refine ⟨{ slowDroplet with
      lifetime := slowDroplet.lifetime - 1/10,
      wasFalling := slowDroplet.wasFalling ||
        decide (slowDroplet.velocity.y < -0.5) }, ?_⟩
  unfold dropletStep
  dsimp only
  rw [if_neg hc1, if_neg hc2, if_neg hc3]

/-! ### Claim C5: teleport handling -/

/-- The state the spec says a teleport should fall back to: heightfield
zeroed and tilt tracking re-baselined to the incoming frame. -/
def discardFluid (inp : LiqIn) (s : Liquid) : Liquid :=
  { s with
      heights := fun _ => 0, velocities := fun _ => 0,
      prevTiltX := inp.tiltX, prevTiltZ := inp.tiltZ,
      tiltVelX := 0, tiltVelZ := 0 }

lemma updateStains_proj (dt : ℚ) (x : Liquid) :
    (updateStains dt x).gridSize = x.gridSize ∧
    (updateStains dt x).velocities = x.velocities ∧
    (updateStains dt x).cupAcceleration = x.cupAcceleration ∧
    (updateStains dt x).tiltVelX = x.tiltVelX ∧
    (updateStains dt x).tiltVelZ = x.tiltVelZ :=
  ⟨rfl, rfl, rfl, rfl, rfl⟩

lemma updateDroplets_proj (E : MathExt) (dt : ℚ) (rnd : ℕ → ℚ)
    (x : Liquid) :
    (updateDroplets E dt rnd x).gridSize = x.gridSize ∧
    (updateDroplets E dt rnd x).velocities = x.velocities ∧
    (updateDroplets E dt rnd x).cupAcceleration = x.cupAcceleration ∧
    (updateDroplets E dt rnd x).tiltVelX = x.tiltVelX ∧
    (updateDroplets E dt rnd x).tiltVelZ = x.tiltVelZ := by
  refine ⟨?_, ?_, ?_, ?_, ?_⟩ <;> rw [updateDroplets_eq]

lemma checkSpills_proj (E : MathExt) (cup : Vec3) (tilt : ℚ) (rnd : ℕ → ℚ)
    (l2w : Vec3 → Vec3) (x : Liquid) :
    (checkSpills E cup tilt rnd l2w x).gridSize = x.gridSize ∧
    (checkSpills E cup tilt rnd l2w x).velocities = x.velocities ∧
    (checkSpills E cup tilt rnd l2w x).cupAcceleration = x.cupAcceleration ∧
    (checkSpills E cup tilt rnd l2w x).tiltVelX = x.tiltVelX ∧
    (checkSpills E cup tilt rnd l2w x).tiltVelZ = x.tiltVelZ := by
  refine ⟨?_, ?_, ?_, ?_, ?_⟩ <;> rw [checkSpills_eq]

/-- What one `update` call does to the tracking fields and the velocity
field on a teleport frame: tilt tracking ends re-baselined, but the cup
acceleration is computed from the raw pre-jump `prevCupPos` and
`prevVelocity`, and that acceleration forces the (reset) velocity
field. -/
lemma update_teleport_fields (E : MathExt) (inp : LiqIn) (s : Liquid)
    (hinit : s.initialized = true)
    (htel : Vec3.distSq inp.cupPos s.prevCupPos > 1) :
    (update E inp s).gridSize = s.gridSize ∧
    (update E inp s).tiltVelX = 0 ∧
    (update E inp s).tiltVelZ = 0 ∧
    (update E inp s).cupAcceleration =
      clampLength E (Vec3.smul
          (1 / (if inp.deltaTime = 0 then 0.016 else inp.deltaTime))
          (Vec3.sub (Vec3.smul
              (1 / (if inp.deltaTime = 0 then 0.016 else inp.deltaTime))
              (Vec3.sub inp.cupPos s.prevCupPos))
            s.prevVelocity)) 0 50 ∧
    (update E inp s).velocities =
      (updateWavePhysics (if inp.deltaTime = 0 then 0.016 else inp.deltaTime)
        (applyPhysicsForces E inp.tiltX inp.tiltZ
          (if inp.deltaTime = 0 then 0.016 else inp.deltaTime)
          { resetHeightfield s with
              prevTiltX := inp.tiltX, prevTiltZ := inp.tiltZ,
              tiltVelX := 0, tiltVelZ := 0,
              cupAcceleration := clampLength E (Vec3.smul
                  (1 / (if inp.deltaTime = 0 then 0.016 else inp.deltaTime))
                  (Vec3.sub (Vec3.smul
                      (1 / (if inp.deltaTime = 0 then 0.016
                        else inp.deltaTime))
                      (Vec3.sub inp.cupPos s.prevCupPos))
                    s.prevVelocity)) 0 50,
              cupVelocity := Vec3.smul
                  (1 / (if inp.deltaTime = 0 then 0.016 else inp.deltaTime))
                  (Vec3.sub inp.cupPos s.prevCupPos),
              prevVelocity := Vec3.smul
                  (1 / (if inp.deltaTime = 0 then 0.016 else inp.deltaTime))
                  (Vec3.sub inp.cupPos s.prevCupPos),
              prevCupPos := inp.cupPos })).velocities := by
  unfold update
  rw [if_neg (show ¬(s.initialized = false) by simp [hinit])]
  dsimp only
  rw [if_pos htel]
  refine ⟨?_, ?_, ?_, ?_, ?_⟩
  · exact ((updateStains_proj _ _).1).trans
      (((updateDroplets_proj E _ _ _).1).trans
        (((checkSpills_proj E _ _ _ _ _).1).trans rfl))
  · refine ((updateStains_proj _ _).2.2.2.1).trans
      (((updateDroplets_proj E _ _ _).2.2.2.1).trans
        (((checkSpills_proj E _ _ _ _ _).2.2.2.1).trans ?_))
    show (inp.tiltX - inp.tiltX) /
      (if inp.deltaTime = 0 then 0.016 else inp.deltaTime) = 0
    rw [sub_self]
    exact zero_div _
  · refine ((updateStains_proj _ _).2.2.2.2).trans
      (((updateDroplets_proj E _ _ _).2.2.2.2).trans
        (((checkSpills_proj E _ _ _ _ _).2.2.2.2).trans ?_))
    show (inp.tiltZ - inp.tiltZ) /
      (if inp.deltaTime = 0 then 0.016 else inp.deltaTime) = 0
    rw [sub_self]
    exact zero_div _
  · exact ((updateStains_proj _ _).2.2.1).trans
      (((updateDroplets_proj E _ _ _).2.2.1).trans
        (((checkSpills_proj E _ _ _ _ _).2.2.1).trans rfl))
  · exact ((updateStains_proj _ _).2.1).trans
      (((updateDroplets_proj E _ _ _).2.1).trans
        (((checkSpills_proj E _ _ _ _ _).2.1).trans rfl))

/-- What one `update` call does to the velocity field on a frame with no
teleport and no first-frame initialisation. -/
lemma update_stay_fields (E : MathExt) (inp : LiqIn) (s : Liquid)
    (hinit : s.initialized = true)
    (hstay : ¬(Vec3.distSq inp.cupPos s.prevCupPos > 1)) :
    (update E inp s).gridSize = s.gridSize ∧
    (update E inp s).velocities =
      (updateWavePhysics (if inp.deltaTime = 0 then 0.016 else inp.deltaTime)
        (applyPhysicsForces E inp.tiltX inp.tiltZ
          (if inp.deltaTime = 0 then 0.016 else inp.deltaTime)
          { s with
              cupAcceleration := clampLength E (Vec3.smul
                  (1 / (if inp.deltaTime = 0 then 0.016 else inp.deltaTime))
                  (Vec3.sub (Vec3.smul
                      (1 / (if inp.deltaTime = 0 then 0.016
                        else inp.deltaTime))
                      (Vec3.sub inp.cupPos s.prevCupPos))
                    s.prevVelocity)) 0 50,
              cupVelocity := Vec3.smul
                  (1 / (if inp.deltaTime = 0 then 0.016 else inp.deltaTime))
                  (Vec3.sub inp.cupPos s.prevCupPos),
              prevVelocity := Vec3.smul
                  (1 / (if inp.deltaTime = 0 then 0.016 else inp.deltaTime))
                  (Vec3.sub inp.cupPos s.prevCupPos),
              prevCupPos := inp.cupPos })).velocities := by
  unfold update
  rw [if_neg (show ¬(s.initialized = false) by simp [hinit])]
  dsimp only
  rw [if_neg hstay]
  refine ⟨?_, ?_⟩
  · exact ((updateStains_proj _ _).1).trans
      (((updateDroplets_proj E _ _ _).1).trans
        (((checkSpills_proj E _ _ _ _ _).1).trans rfl))
  · exact ((updateStains_proj _ _).2.1).trans
      (((updateDroplets_proj E _ _ _).2.1).trans
        (((checkSpills_proj E _ _ _ _ _).2.1).trans rfl))

/-- **C5 (amended).**  On a teleport frame (position jump of squared
distance > 1), `update` discards the pre-jump fluid state entirely —
it behaves exactly as if the heightfield had been zeroed and the tilt
tracking re-baselined beforehand (`discardFluid`) — and the resulting
tilt velocities are zero.  However the *translational* tracking is not
re-baselined: the cup acceleration is computed from the raw pre-jump
`prevCupPos`/`prevVelocity` (clamped to length 50) and forces the fluid
on the same frame (see the counterexample). -/
theorem C5_teleport_discards_fluid_amended (E : MathExt) (inp : LiqIn)
    (s : Liquid) (hinit : s.initialized = true)
    (htel : Vec3.distSq inp.cupPos s.prevCupPos > 1) :
    update E inp s = update E inp (discardFluid inp s) ∧
    (update E inp s).tiltVelX = 0 ∧
    (update E inp s).tiltVelZ = 0 := by
  refine ⟨?_, (update_teleport_fields E inp s hinit htel).2.1,
    (update_teleport_fields E inp s hinit htel).2.2.1⟩
  unfold update
  rw [if_neg (show ¬(s.initialized = false) by simp [hinit]),
    if_neg (show ¬((discardFluid inp s).initialized = false) by
      simp [discardFluid, hinit])]
  dsimp only
  rw [if_pos htel,
    if_pos (show Vec3.distSq inp.cupPos (discardFluid inp s).prevCupPos > 1
      from htel)]
  rfl

/-- A fully initialised fresh simulation. -/
def sReady : Liquid := { initLiquid true with initialized := true }

/-- A frame whose cup position jumps 2 units in half a second. -/
def liqJump : LiqIn :=
  { cupPos := ⟨2, 0, 0⟩, tiltX := 0, tiltZ := 0, deltaTime := 1/2,
    rnd := fun _ => 1/2, l2w := fun v => v }

/-- The same frame without the jump. -/
def liqStay : LiqIn :=
  { cupPos := Vec3.zero, tiltX := 0, tiltZ := 0, deltaTime := 1/2,
    rnd := fun _ => 1/2, l2w := fun v => v }

/-- Counterexample to C5 as stated: the teleport branch does *not*
re-baseline the velocity/acceleration tracking, so the jump *is*
integrated into the fluid forcing.  On the jump frame the corner cell
(0,0) ends with fluid velocity 12/5 (vs 0 on the identical frame without
the jump), driven by the jump-derived cup acceleration (8,0,0). -/
theorem C5_counterexample :
    getVelocity (update mathExt0 liqJump sReady) 0 0 = 12/5 ∧
    getVelocity (update mathExt0 liqStay sReady) 0 0 = 0 ∧
    (update mathExt0 liqJump sReady).cupAcceleration = ⟨8, 0, 0⟩ := by
  have htelJ : Vec3.distSq liqJump.cupPos sReady.prevCupPos > 1 := by
    norm_num [liqJump, sReady, initLiquid, Vec3.distSq, Vec3.normSq,
      Vec3.sub, Vec3.zero]
  have hstayS : ¬(Vec3.distSq liqStay.cupPos sReady.prevCupPos > 1) := by
    norm_num [liqStay, sReady, initLiquid, Vec3.distSq, Vec3.normSq,
      Vec3.sub, Vec3.zero]
  have hTF := update_teleport_fields mathExt0 liqJump sReady rfl htelJ
  have hSF := update_stay_fields mathExt0 liqStay sReady rfl hstayS
  have hv8 : Vec3.smul
      (1 / (if liqJump.deltaTime = 0 then 0.016 else liqJump.deltaTime))
      (Vec3.sub (Vec3.smul
          (1 / (if liqJump.deltaTime = 0 then 0.016 else liqJump.deltaTime))
          (Vec3.sub liqJump.cupPos sReady.prevCupPos))
        sReady.prevVelocity) = (⟨8, 0, 0⟩ : Vec3) := by
    norm_num [liqJump, sReady, initLiquid, Vec3.smul, Vec3.sub, Vec3.zero,
      Vec3.mk.injEq]
  have hv0 : Vec3.smul
      (1 / (if liqStay.deltaTime = 0 then 0.016 else liqStay.deltaTime))
      (Vec3.sub (Vec3.smul
          (1 / (if liqStay.deltaTime = 0 then 0.016 else liqStay.deltaTime))
          (Vec3.sub liqStay.cupPos sReady.prevCupPos))
        sReady.prevVelocity) = (⟨0, 0, 0⟩ : Vec3) := by
    norm_num [liqStay, sReady, initLiquid, Vec3.smul, Vec3.sub, Vec3.zero,
      Vec3.mk.injEq]
  have hsq8 : mathExt0.sqrtE (Vec3.normSq (⟨8, 0, 0⟩ : Vec3)) = 8 := by
    have h1 : Vec3.normSq (⟨8, 0, 0⟩ : Vec3) = (8 : ℚ) * 8 := by
      norm_num [Vec3.normSq]
    rw [h1]
    show Rat.sqrt ((8 : ℚ) * 8) = 8
    rw [Rat.sqrt_eq]
    norm_num
  have hsq0 : mathExt0.sqrtE (Vec3.normSq (⟨0, 0, 0⟩ : Vec3)) = 0 := by
    have h1 : Vec3.normSq (⟨0, 0, 0⟩ : Vec3) = (0 : ℚ) * 0 := by
      norm_num [Vec3.normSq]
    rw [h1]
    show Rat.sqrt ((0 : ℚ) * 0) = 0
    rw [Rat.sqrt_eq]
    norm_num
  have hcl8 : clampLength mathExt0 (⟨8, 0, 0⟩ : Vec3) 0 50 =
      (⟨8, 0, 0⟩ : Vec3) := by
    unfold clampLength
    dsimp only
    rw [hsq8]
    norm_num [Vec3.smul, Vec3.mk.injEq, min_def, max_def]
  have hcl0 : clampLength mathExt0 (⟨0, 0, 0⟩ : Vec3) 0 50 =
      (⟨0, 0, 0⟩ : Vec3) := by
    unfold clampLength
    dsimp only
    rw [hsq0]
    norm_num [Vec3.smul, Vec3.mk.injEq, min_def, max_def]
  have hacc : (update mathExt0 liqJump sReady).cupAcceleration =
      (⟨8, 0, 0⟩ : Vec3) := by
    rw [hTF.2.2.2.1, hv8, hcl8]
  have hgJ : ¬((0 : ℤ) < 0 ∨
      (0 : ℤ) ≥ ((update mathExt0 liqJump sReady).gridSize : ℤ) ∨
      (0 : ℤ) < 0 ∨
      (0 : ℤ) ≥ ((update mathExt0 liqJump sReady).gridSize : ℤ)) := by
    rw [hTF.1]
    norm_num [sReady, initLiquid]
  have hgS : ¬((0 : ℤ) < 0 ∨
      (0 : ℤ) ≥ ((update mathExt0 liqStay sReady).gridSize : ℤ) ∨
      (0 : ℤ) < 0 ∨
      (0 : ℤ) ≥ ((update mathExt0 liqStay sReady).gridSize : ℤ)) := by
    rw [hSF.1]
    norm_num [sReady, initLiquid]
  refine ⟨?_, ?_, hacc⟩
  · unfold getVelocity
    rw [if_neg hgJ]
    have hidx : (((0 : ℤ) * (update mathExt0 liqJump sReady).gridSize +
        0)).toNat = 0 := by norm_num
    rw [hidx, hTF.2.2.2.2, hv8, hcl8,
      if_neg (show ¬(liqJump.deltaTime = 0) by norm_num [liqJump])]
    unfold updateWavePhysics
    dsimp only
    split
    next hint =>
      exfalso
      have h2 := hint.2.1
      rw [Nat.zero_mod] at h2
      exact absurd h2 (by norm_num)
    next =>
      norm_num [applyPhysicsForces, resetHeightfield, sReady, liqJump,
        initLiquid, mathExt0, min_def, max_def]
  · unfold getVelocity
    rw [if_neg hgS]
    have hidx : (((0 : ℤ) * (update mathExt0 liqStay sReady).gridSize +
        0)).toNat = 0 := by norm_num
    rw [hidx, hSF.2, hv0, hcl0,
      if_neg (show ¬(liqStay.deltaTime = 0) by norm_num [liqStay])]
    unfold updateWavePhysics
    dsimp only
    split
    next hint =>
      exfalso
      have h2 := hint.2.1
      rw [Nat.zero_mod] at h2
      exact absurd h2 (by norm_num)
    next =>
      norm_num [applyPhysicsForces, sReady, liqStay,
        initLiquid, mathExt0, min_def, max_def]

/-- Witness for C5 (amended): the initialised fresh simulation hit by a
2-unit jump. -/
theorem C5_teleport_discards_fluid_amended_witness :
    (sReady.initialized = true ∧
      Vec3.distSq liqJump.cupPos sReady.prevCupPos > 1) ∧
    (update mathExt0 liqJump sReady =
        update mathExt0 liqJump (discardFluid liqJump sReady) ∧
      (update mathExt0 liqJump sReady).tiltVelX = 0 ∧
      (update mathExt0 liqJump sReady).tiltVelZ = 0) :=
  ⟨⟨rfl, by norm_num [liqJump, sReady, initLiquid, Vec3.distSq,
      Vec3.normSq, Vec3.sub, Vec3.zero]⟩,
    C5_teleport_discards_fluid_amended mathExt0 liqJump sReady rfl
      (by norm_num [liqJump, sReady, initLiquid, Vec3.distSq,
        Vec3.normSq, Vec3.sub, Vec3.zero])⟩

/-- Witness for C9: index (-1, 40) on the freshly built 32×32 simulation. -/
theorem C9_heightfield_boundary_safe_witness :
    ((-1 : ℤ) < 0 ∨ (-1 : ℤ) ≥ ((initLiquid true).gridSize : ℤ) ∨
      (40 : ℤ) < 0 ∨ (40 : ℤ) ≥ ((initLiquid true).gridSize : ℤ)) ∧
    (getHeight (initLiquid true) (-1) 40 = 0 ∧
     getVelocity (initLiquid true) (-1) 40 = 0 ∧
     setHeight (initLiquid true) (-1) 40 (1/2) = initLiquid true ∧
     setVelocity (initLiquid true) (-1) 40 (1/2) = initLiquid true) :=
  ⟨Or.inl (by decide),
    C9_heightfield_boundary_safe (initLiquid true) (-1) 40 (1/2) (1/2)
      (Or.inl (by decide))⟩

end ThomasSim
